import Mathlib

/-!
Verification development for the backend-rgbi repository (province-level
food-security / supply-chain / trade-connection backend).

The JavaScript sources are shallowly embedded as Lean definitions:
pure helpers become Lean functions, the mongoose collections become lists of
records threaded through the request handlers, numeric JSON values become
rationals (decimal constants are written with mkRat, e.g. 37.61 = mkRat 3761
100), JSON fields that may be absent become Option, and each request handler
becomes a total function from the database state and its inputs to a response
value paired with the new state.  Timestamps are passed in explicitly as an
integer clock value.  Authentication is modelled by passing the principal
(name, id, role) as an explicit argument; handlers are only modelled past
their authentication guard.
-/

namespace RGBI

/-- The Province Registry record, from provinceSchema (concatenated into
src/models/sar.model.js, second document, lines 44-116): a unique name, a
code and an optional geoData object, with a generated id.  Geometry content
is irrelevant to the properties below, so only its presence is kept; the
metadata block and the geojson helper methods are unused by the embedded
handlers and omitted. -/
structure Province where
  id : Nat
  name : String
  code : String
  hasGeoData : Bool
  deriving Repr, DecidableEq

/-- Resolve a province by id (Province.findById). -/
def findProvince (reg : List Province) (pid : Nat) : Option Province :=
  reg.find? (fun p => p.id == pid)

/-- The authenticated principal attached to a request (req.user). -/
structure UserCtx where
  uid : Nat
  name : String
  role : String
  deriving Repr, DecidableEq

/-- JS `req.user.name || req.user._id` : the name unless it is falsy (empty). -/
def userCreatedBy (u : UserCtx) : String :=
  if u.name == "" then toString u.uid else u.name

/-- JS object spread `{...base, ...extra}` on string-keyed rational maps:
keys of extra win, remaining keys of base are kept. -/
def jsMerge (base extra : List (String × Rat)) : List (String × Rat) :=
  base.map (fun kv => (kv.1, ((extra.find? (fun p => p.1 == kv.1)).map Prod.snd).getD kv.2))
    ++ extra.filter (fun p => base.all (fun kv => kv.1 != p.1))

/-! ## Storage-layer index declarations (src/models)

Each mongoose index declaration is recorded as the list of indexed paths
together with whether the index was declared with the unique option. -/

/-- One mongoose index declaration. -/
structure IndexSpec where
  keys : List String
  unique : Bool
  deriving Repr, DecidableEq

/-- Indexes of the FoodSecurity collection
(src/models/foodsecurity.model.js lines 136-139). -/
def foodSecuritySchemaIndexes : List IndexSpec :=
  [⟨["provinsi", "tahun"], true⟩,
   ⟨["kategori_ketahanan_pangan.kategori"], false⟩,
   ⟨["tahun"], false⟩]

/-- Indexes of the SupplyChain collection
(src/models/supplychain.model.js lines 71-72): a compound index on the
natural key declared without the unique option. -/
def supplyChainSchemaIndexes : List IndexSpec :=
  [⟨["provinsi", "tahun"], false⟩]

/-- Indexes of the ProvinceConnection collection
(provinceConnectionSchema, src/models/supplychain.model.js lines 103-107 of
the concatenated file). -/
def provinceConnectionSchemaIndexes : List IndexSpec :=
  [⟨["sourceProvinceId", "targetProvinceId", "year"], true⟩]

/-- Whether a collection declares a unique index on the (provinsi, tahun)
natural key. -/
def hasUniqueNatKeyIndex (idxs : List IndexSpec) : Bool :=
  idxs.any (fun i => i.keys == ["provinsi", "tahun"] && i.unique)

/-- Storage-layer insert of a fact row, abstracted to its natural key: the
insert is rejected with a duplicate-key error exactly when the collection has
a unique index on (provinsi, tahun) and the key is already present.  Without
such an index the storage layer accepts the duplicate. -/
def natKeyInsert (idxs : List IndexSpec) (store : List (String × Int))
    (k : String × Int) : Except String (List (String × Int)) :=
  if hasUniqueNatKeyIndex idxs && store.contains k then
    .error "E11000 duplicate key error"
  else
    .ok (store ++ [k])

/-! ## Declared schema paths and strict-mode persistence (src/models)

Mongoose runs schemas in strict mode by default: top-level keys of a document
that are not declared in the schema are dropped before the document is
persisted.  The top-level paths declared by each fact schema are recorded
here, straight from the model files. -/

/-- Top-level paths of foodSecuritySchema
(src/models/foodsecurity.model.js lines 6-134). -/
def foodSecuritySchemaPaths : List String :=
  ["provinsi", "tahun", "dependent_variable", "kategori_ketahanan_pangan",
   "independent_variables", "createdAt", "updatedAt", "createdBy", "userRole",
   "updatedBy"]

/-- Top-level paths of supplyChainSchema
(src/models/supplychain.model.js lines 7-59; timestamps: true adds createdAt
and updatedAt). -/
def supplyChainSchemaPaths : List String :=
  ["tahun", "provinsi", "mpp", "jumlahRantai", "produksiBeras",
   "konsumsiBeras", "kondisi", "createdBy", "userRole", "updatedBy",
   "createdAt", "updatedAt"]

/-- Strict-mode filtering: the document keys that actually reach storage. -/
def mongooseStrictFilter (schemaPaths docPaths : List String) : List String :=
  docPaths.filter (fun p => schemaPaths.contains p)

/-- Top-level keys of the document built by createFoodSecurityData
(src/unnamed/part_015 lines 566-593): the default independent_variables
block, the keys of the request body, and the keys the controller sets
explicitly (province name, province id reference, audit fields). -/
def createFoodSecuritySetsPaths (bodyPaths : List String) : List String :=
  (["independent_variables"] ++ bodyPaths ++
   ["provinsi", "provinceReference", "createdBy", "userRole"]).dedup

/-- Top-level keys of the document built by the bulk food-security import
(src/unnamed/part_015 lines 874-888). -/
def bulkFoodSecuritySetsPaths : List String :=
  ["provinsi", "tahun", "provinceReference", "dependent_variable",
   "independent_variables", "createdBy", "userRole", "createdAt"]

/-! ## Derived classification (src/models/foodsecurity.model.js) -/

/-- Result of determineFoodSecurityCategory: the kategori number (none models
the JS null of the unreachable fallback branch), label and description. -/
structure FSCategory where
  kategori : Option Nat
  label : String
  deskripsi : String
  deriving Repr, DecidableEq

/-- Threshold classification of the food-security index
(foodSecuritySchema.methods.determineFoodSecurityCategory,
src/models/foodsecurity.model.js lines 142-188).  The decimal thresholds
37.61, 48.27, 57.11, 65.96, 74.40 are written with mkRat. -/
def determineFoodSecurityCategory (indeks : Rat) : FSCategory :=
  if indeks ≤ mkRat 3761 100 then
    ⟨some 1, "Sangat Rentan", "Prioritas 1 (Sangat Rentan)"⟩
  else if mkRat 3761 100 < indeks ∧ indeks ≤ mkRat 4827 100 then
    ⟨some 2, "Rentan", "Prioritas 2 (Rentan)"⟩
  else if mkRat 4827 100 < indeks ∧ indeks ≤ mkRat 5711 100 then
    ⟨some 3, "Agak Rentan", "Prioritas 3 (Agak Rentan)"⟩
  else if mkRat 5711 100 < indeks ∧ indeks ≤ mkRat 6596 100 then
    ⟨some 4, "Agak Tahan", "Prioritas 4 (Agak Tahan)"⟩
  else if mkRat 6596 100 < indeks ∧ indeks ≤ mkRat 7440 100 then
    ⟨some 5, "Tahan", "Prioritas 5 (Tahan)"⟩
  else if mkRat 7440 100 < indeks then
    ⟨some 6, "Sangat Tahan", "Prioritas 6 (Sangat Tahan)"⟩
  else
    ⟨none, "Tidak Valid", "Indeks tidak valid"⟩

/-- Category part of the pre-save hook
(foodSecuritySchema.pre save, src/models/foodsecurity.model.js lines
190-200): the category is auto-determined exactly when the stored kategori
number is JS-falsy (absent or 0). -/
def fsPreSaveCategory (existing : Option FSCategory) (indeks : Rat) :
    FSCategory :=
  match existing with
  | none => determineFoodSecurityCategory indeks
  | some c =>
      if (c.kategori.getD 0) == 0 then determineFoodSecurityCategory indeks
      else c

/-! ## Supply-chain condition (src/models/supplychain.model.js) -/

/-- The kondisi enum of supplyChainSchema (lines 38-44): only these two
values can be stored. -/
inductive Kondisi where
  | Surplus
  | Defisit
  deriving Repr, DecidableEq

/-- Pre-save computation of kondisi
(supplyChainSchema.pre save, src/models/supplychain.model.js lines 61-69). -/
def scPreSaveKondisi (produksiBeras konsumsiBeras : Rat) : Kondisi :=
  if produksiBeras ≤ konsumsiBeras then .Defisit else .Surplus

/-- The three-way balance classification computed by the map read paths. -/
inductive BalanceType where
  | surplus
  | deficit
  | balanced
  deriving Repr, DecidableEq

/-- balanceType as computed by getCombinedMapData
(src/controllers/map.controller.js line 428): production > consumption is
surplus, production < consumption is deficit, otherwise balanced. -/
def combinedBalanceType (production consumption : Rat) : BalanceType :=
  if production > consumption then .surplus
  else if production < consumption then .deficit
  else .balanced

/-- Self-connection guard of provinceConnectionSchema.pre validate
(src/models/supplychain.model.js lines 110-116 of the concatenated file):
a connection document is invalidated when source and target are present and
equal, so document validation accepts it iff source differs from target. -/
def connSchemaValidatesOk (sourceProvinceId targetProvinceId : Nat) : Bool :=
  sourceProvinceId != targetProvinceId

/-! ## Bulk food-security import (src/unnamed/part_015 lines 798-963)

The controller builds documents of an older generation, shaped
dependent_variable.prevalence_of_undernourishment plus eight SAR-era
independent variables, but it persists them through the FoodSecurity model
of src/models/foodsecurity.model.js, whose schema declares
dependent_variable.indeks_ketahanan_pangan (required) and nine different
required independent_variables paths.  Under default strict mode the
undeclared nested paths are stripped, so the document FoodSecurity.create
receives always misses the required dependent variable (and, unless the row
itself supplies the newer names, eight of the nine required independent
variables): create always throws a ValidationError.  The update path fares
no better: the set operation replaces dependent_variable and
independent_variables wholesale with the strict-stripped objects, and
runValidators rejects the missing required children.  Every row that passes
the controller checks is therefore caught by the per-row try/catch and
tallied failed, and the loop never modifies the store.  The per-row
try/catch of the source is modelled by fsRowCheck returning Except plus the
always-failing persistence step; mongoose's composed validation message is
abbreviated to its failing required paths. -/

/-- One raw input row of the bulk food-security import.  Absent JSON fields
are none; pou is dependent_variable.prevalence_of_undernourishment. -/
structure FSRow where
  provinceId : Option Nat
  tahun : Option Int
  pou : Option Rat
  indep : List (String × Rat)
  deriving Repr, DecidableEq

/-- Outcome of the successful validation of one row: the resolved province
and the extracted fields. -/
structure FSValid where
  province : Province
  tahun : Int
  pou : Rat
  deriving Repr, DecidableEq

/-- Row validation of bulkImportFoodSecurity (part_015 lines 844-865), in
source order: the JS-falsy test on provinceId, tahun and the dependent
variable (0 is falsy), the integer-year range test, then province
resolution.  The error strings are the thrown messages. -/
def fsRowCheck (reg : List Province) (row : FSRow) : Except String FSValid :=
  match row.provinceId, row.tahun, row.pou with
  | some pid, some tahun, some pou =>
      if tahun == 0 || pou == 0 then
        .error "Missing required fields: provinceId, tahun, or dependent_variable.prevalence_of_undernourishment"
      else if tahun < 2000 || 2100 < tahun then
        .error ("Invalid year: " ++ toString tahun ++ ". Year must be an integer between 2000 and 2100")
      else
        match findProvince reg pid with
        | none => .error ("Province not found with ID: " ++ toString pid)
        | some p => .ok ⟨p, tahun, pou⟩
  | _, _, _ =>
      .error "Missing required fields: provinceId, tahun, or dependent_variable.prevalence_of_undernourishment"

/-- Default independent variables of the bulk import (part_015 lines
828-837). -/
def fsDefaultIndependentVars : List (String × Rat) :=
  [("persentase_nilai_perdagangan_domestik", 0), ("indeks_harga_implisit", 0),
   ("koefisien_gini", 0), ("indeks_pembangunan_manusia", 0),
   ("kepadatan_penduduk", 0), ("ketersediaan_infrastruktur_jalan", 0),
   ("indeks_kemahalan_konstruksi", 0), ("indeks_demokrasi_indonesia", 0)]

/-- The nine required independent_variables names of foodSecuritySchema
(src/models/foodsecurity.model.js lines 55-113). -/
def fsNewIndepRequiredKeys : List String :=
  ["produktivitas_padi", "persentase_penduduk_miskin",
   "harga_komoditas_beras", "persentase_pengeluaran_makanan",
   "prevalensi_balita_stunting", "ipm", "kepadatan_penduduk", "ahh",
   "persentase_rumah_tangga_dengan_listrik"]

/-- The required nested paths of foodSecuritySchema: the dependent variable
(line 29-36) and the nine independent variables. -/
def foodSecurityRequiredNestedPaths : List String :=
  "dependent_variable.indeks_ketahanan_pangan" ::
    fsNewIndepRequiredKeys.map (fun k => "independent_variables." ++ k)

/-- The nested paths the part_015 bulk entry sets (lines 874-888): the old
document generation plus the audit fields. -/
def bulkFoodSecurityEntryNestedPaths : List String :=
  ["provinsi", "tahun", "provinceReference",
   "dependent_variable.prevalence_of_undernourishment"] ++
  fsDefaultIndependentVars.map (fun kv => "independent_variables." ++ kv.1) ++
  ["createdBy", "userRole", "createdAt"]

/-- The independent_variables keys of the bulk entry after the JS merge of
the SAR-era defaults with the keys the row supplies. -/
def fsEntryIndepKeys (row : FSRow) : List String :=
  (jsMerge fsDefaultIndependentVars row.indep).map (fun kv => kv.1)

/-- The required schema paths the bulk entry misses: the dependent variable
(the entry hard-codes the older prevalence_of_undernourishment shape, so
indeks_ketahanan_pangan is always absent) and every required
independent_variables name the merged entry does not carry. -/
def fsCreateMissingRequired (row : FSRow) : List String :=
  "dependent_variable.indeks_ketahanan_pangan" ::
    (fsNewIndepRequiredKeys.filter (fun k =>
      !((fsEntryIndepKeys row).contains k))).map
      (fun k => "independent_variables." ++ k)

/-- The ValidationError message of the always-failing persistence of a
controller-valid bulk row, abbreviated to the failing required paths. -/
def fsCreateValidationMsg (row : FSRow) : String :=
  "FoodSecurity validation failed: " ++
    String.intercalate ", "
      ((fsCreateMissingRequired row).map (fun p => p ++ " is required"))

/-- A persisted FoodSecurity document shaped by foodSecuritySchema
(src/models/foodsecurity.model.js, declared paths after strict-mode
filtering).  The part_015 bulk path never succeeds in writing one; records
of this shape enter the store only through writers of the matching document
generation. -/
structure FSRecord where
  provinsi : String
  tahun : Int
  indeks_ketahanan_pangan : Rat
  kategori : Option Nat
  independent_variables : List (String × Rat)
  createdAt : Int
  updatedAt : Option Int
  createdBy : String
  userRole : String
  updatedBy : Option String
  deriving Repr, DecidableEq

/-- Replace the first element satisfying p (the record found by findOne and
addressed by its id in findByIdAndUpdate). -/
def updateFirst (p : α → Bool) (f : α → α) : List α → List α
  | [] => []
  | x :: xs => if p x then f x :: xs else x :: updateFirst p f xs

/-- One entry of the bulk-result error list (part_015 lines 913-917):
1-based index, the raw input row, and the thrown message. -/
structure FSBulkError where
  index : Nat
  data : FSRow
  error : String
  deriving Repr, DecidableEq

/-- The running tally of the bulk import (part_015 lines 819-825). -/
structure FSBulkResult where
  created : Nat
  updated : Nat
  failed : Nat
  errors : List FSBulkError
  processedCount : Nat
  deriving Repr, DecidableEq

/-- The row loop of bulkImportFoodSecurity (part_015 lines 840-922), folding
each row into the tally; idx is the 0-based position of the first pending
row.  A row failing the controller checks is tallied with the thrown
message; a row passing them reaches the persistence step, where the update
branch (findByIdAndUpdate of the entry under runValidators) and the create
branch (FoodSecurity.create of the entry) both reject the old-generation
document with a ValidationError, caught by the same per-row try/catch, so
the store is never modified. -/
def fsBulkLoop (reg : List Province) (u : UserCtx) (now : Int) :
    List FSRow → Nat → List FSRecord → FSBulkResult →
    List FSRecord × FSBulkResult
  | [], _, store, res => (store, res)
  | row :: rest, idx, store, res =>
      match fsRowCheck reg row with
      | .error msg =>
          fsBulkLoop reg u now rest (idx + 1) store
            { res with
              processedCount := res.processedCount + 1
              failed := res.failed + 1
              errors := res.errors ++ [⟨idx + 1, row, msg⟩] }
      | .ok v =>
          match store.find? (fun r =>
              r.provinsi == v.province.name && r.tahun == v.tahun) with
          | some _ =>
              fsBulkLoop reg u now rest (idx + 1) store
                { res with
                  processedCount := res.processedCount + 1
                  failed := res.failed + 1
                  errors := res.errors ++
                    [⟨idx + 1, row, fsCreateValidationMsg row⟩] }
          | none =>
              fsBulkLoop reg u now rest (idx + 1) store
                { res with
                  processedCount := res.processedCount + 1
                  failed := res.failed + 1
                  errors := res.errors ++
                    [⟨idx + 1, row, fsCreateValidationMsg row⟩] }

/-- The response payload of the bulk import (part_015 lines 927-940). -/
structure FSBulkResponse where
  status : Nat
  success : Bool
  totalProcessed : Nat
  successful : Nat
  created : Nat
  updated : Nat
  failed : Nat
  errors : List FSBulkError
  deriving Repr, DecidableEq

/-- bulkImportFoodSecurity (part_015 lines 798-963) past its authentication
guard: none models the 400 rejection of a missing or empty row array;
otherwise the rows are processed in order and the tally is returned with
status 207 when any row failed, 200 otherwise. -/
def bulkImportFoodSecurity (reg : List Province) (u : UserCtx) (now : Int)
    (store : List FSRecord) (rows : List FSRow) :
    Option (FSBulkResponse × List FSRecord) :=
  if rows.isEmpty then none
  else
    let out := fsBulkLoop reg u now rows 0 store ⟨0, 0, 0, [], 0⟩
    let res := out.2
    some
      ({ status := if res.failed > 0 then 207 else 200
         success := res.failed == 0
         totalProcessed := res.processedCount
         successful := res.created + res.updated
         created := res.created
         updated := res.updated
         failed := res.failed
         errors := res.errors }, out.1)

/-- The expected error list of a batch: one entry per row, carrying its
1-based position and either the message of its failed controller check or
the ValidationError of the always-failing persistence step.  Every row
fails, so this is a function of the registry and the rows alone. -/
def fsExpectedErrors (reg : List Province) :
    List FSRow → Nat → List FSBulkError
  | [], _ => []
  | row :: rest, idx =>
      (match fsRowCheck reg row with
       | .error msg => (⟨idx + 1, row, msg⟩ : FSBulkError)
       | .ok _ => ⟨idx + 1, row, fsCreateValidationMsg row⟩) ::
        fsExpectedErrors reg rest (idx + 1)

/-! ## Bulk supply-chain import
(src/controllers/connectprovince.controller.js lines 1956-2113)

Same per-row structure as the food-security import; here the controller and
the schema agree on the document shape, so mongoose required-field and enum
validation of SupplyChain.create (and of the set paths under runValidators)
is modelled.  The undeclared provinceReference key is again dropped by
strict mode.  Where mongoose composes a validation message dynamically, only
its fixed schema message texts are kept. -/

/-- One raw input row of the bulk supply-chain import: the body keys that the
supplyChainSchema declares (extra body keys would be dropped by strict
mode). -/
structure SCRow where
  provinceId : Option Nat
  tahun : Option Int
  mpp : Option Rat
  jumlahRantai : Option Rat
  produksiBeras : Option Rat
  konsumsiBeras : Option Rat
  deriving Repr, DecidableEq

/-- Successful controller-level validation of one supply-chain row. -/
structure SCValid where
  province : Province
  tahun : Int
  deriving Repr, DecidableEq

/-- Controller checks of bulkImportSupplyChain (lines 1990-2011), in source
order: JS-falsy test on provinceId and tahun, year range, then province
resolution. -/
def scRowCheck (reg : List Province) (row : SCRow) : Except String SCValid :=
  match row.provinceId, row.tahun with
  | some pid, some tahun =>
      if tahun == 0 then
        .error "Missing required fields: provinceId or tahun"
      else if tahun < 2000 || 2100 < tahun then
        .error ("Invalid year: " ++ toString tahun ++ ". Year must be an integer between 2000 and 2100")
      else
        match findProvince reg pid with
        | none => .error ("Province not found with ID: " ++ toString pid)
        | some p => .ok ⟨p, tahun⟩
  | _, _ => .error "Missing required fields: provinceId or tahun"

/-- The userRole enum of supplyChainSchema (lines 49-53). -/
def scUserRoles : List String := ["pemerintah", "petugas_lapangan"]

/-- Mongoose validation of SupplyChain.create for a bulk entry: the required
numeric paths (schema messages, lines 20-37) and the userRole enum.  Returns
the composed failure message, or none when the document validates. -/
def scCreateValidate (row : SCRow) (role : String) : Option String :=
  let missing :=
    (if row.mpp.isNone then ["mpp: MPP is required"] else []) ++
    (if row.jumlahRantai.isNone then ["jumlahRantai: Chain count is required"] else []) ++
    (if row.produksiBeras.isNone then ["produksiBeras: Rice production is required"] else []) ++
    (if row.konsumsiBeras.isNone then ["konsumsiBeras: Rice consumption is required"] else [])
  let missing := missing ++
    (if scUserRoles.contains role then [] else ["userRole: invalid enum value"])
  match missing with
  | [] => none
  | ms => some ("SupplyChain validation failed: " ++ String.intercalate ", " ms)

/-- A persisted SupplyChain record (schema paths of
src/models/supplychain.model.js after strict-mode filtering). -/
structure SCRecord where
  provinsi : String
  tahun : Int
  mpp : Rat
  jumlahRantai : Rat
  produksiBeras : Rat
  konsumsiBeras : Rat
  kondisi : Kondisi
  createdBy : String
  userRole : String
  createdAt : Int
  updatedAt : Option Int
  updatedBy : Option String
  deriving Repr, DecidableEq

/-- The record created for a fresh natural key (lines 2020-2027 and 2049):
the pre-save hook computes kondisi; timestamps stamp updatedAt. -/
def scFreshRecord (u : UserCtx) (now : Int) (v : SCValid)
    (row : SCRow) : SCRecord :=
  { provinsi := v.province.name
    tahun := v.tahun
    mpp := row.mpp.getD 0
    jumlahRantai := row.jumlahRantai.getD 0
    produksiBeras := row.produksiBeras.getD 0
    konsumsiBeras := row.konsumsiBeras.getD 0
    kondisi := scPreSaveKondisi (row.produksiBeras.getD 0) (row.konsumsiBeras.getD 0)
    createdBy := userCreatedBy u
    userRole := u.role
    createdAt := now
    updatedAt := some now
    updatedBy := none }

/-- The record written over an existing natural key (lines 2032-2046): only
the keys present in the spread entry are set, so absent numeric fields keep
their stored values; findByIdAndUpdate runs no save hook, so kondisi is not
recomputed. -/
def scUpdatedRecord (old : SCRecord) (u : UserCtx) (now : Int) (v : SCValid)
    (row : SCRow) : SCRecord :=
  { provinsi := v.province.name
    tahun := v.tahun
    mpp := row.mpp.getD old.mpp
    jumlahRantai := row.jumlahRantai.getD old.jumlahRantai
    produksiBeras := row.produksiBeras.getD old.produksiBeras
    konsumsiBeras := row.konsumsiBeras.getD old.konsumsiBeras
    kondisi := old.kondisi
    createdBy := userCreatedBy u
    userRole := u.role
    createdAt := now
    updatedAt := some now
    updatedBy := some (toString u.uid) }

/-- One entry of the supply-chain bulk error list (lines 2055-2059). -/
structure SCBulkError where
  index : Nat
  data : SCRow
  error : String
  deriving Repr, DecidableEq

/-- The running tally of the supply-chain bulk import (lines 1977-1983). -/
structure SCBulkResult where
  created : Nat
  updated : Nat
  failed : Nat
  errors : List SCBulkError
  processedCount : Nat
  deriving Repr, DecidableEq

/-- The row loop of bulkImportSupplyChain (lines 1986-2064).  runValidators
validates the userRole enum on the update path as well. -/
def scBulkLoop (reg : List Province) (u : UserCtx) (now : Int) :
    List SCRow → Nat → List SCRecord → SCBulkResult →
    List SCRecord × SCBulkResult
  | [], _, store, res => (store, res)
  | row :: rest, idx, store, res =>
      match scRowCheck reg row with
      | .error msg =>
          scBulkLoop reg u now rest (idx + 1) store
            { res with
              processedCount := res.processedCount + 1
              failed := res.failed + 1
              errors := res.errors ++ [⟨idx + 1, row, msg⟩] }
      | .ok v =>
          match store.find? (fun r =>
              r.provinsi == v.province.name && r.tahun == v.tahun) with
          | some _ =>
              if scUserRoles.contains u.role then
                scBulkLoop reg u now rest (idx + 1)
                  (updateFirst
                    (fun r => r.provinsi == v.province.name && r.tahun == v.tahun)
                    (fun old => scUpdatedRecord old u now v row) store)
                  { res with
                    processedCount := res.processedCount + 1
                    updated := res.updated + 1 }
              else
                scBulkLoop reg u now rest (idx + 1) store
                  { res with
                    processedCount := res.processedCount + 1
                    failed := res.failed + 1
                    errors := res.errors ++
                      [⟨idx + 1, row, "SupplyChain validation failed: userRole: invalid enum value"⟩] }
          | none =>
              match scCreateValidate row u.role with
              | some msg =>
                  scBulkLoop reg u now rest (idx + 1) store
                    { res with
                      processedCount := res.processedCount + 1
                      failed := res.failed + 1
                      errors := res.errors ++ [⟨idx + 1, row, msg⟩] }
              | none =>
                  scBulkLoop reg u now rest (idx + 1)
                    (store ++ [scFreshRecord u now v row])
                    { res with
                      processedCount := res.processedCount + 1
                      created := res.created + 1 }

/-- The response payload of the supply-chain bulk import (lines 2069-2082). -/
structure SCBulkResponse where
  status : Nat
  success : Bool
  totalProcessed : Nat
  successful : Nat
  created : Nat
  updated : Nat
  failed : Nat
  errors : List SCBulkError
  deriving Repr, DecidableEq

/-- bulkImportSupplyChain (lines 1956-2113) past its authentication guard;
none models the 400 rejection of a missing or empty row array. -/
def bulkImportSupplyChain (reg : List Province) (u : UserCtx) (now : Int)
    (store : List SCRecord) (rows : List SCRow) :
    Option (SCBulkResponse × List SCRecord) :=
  if rows.isEmpty then none
  else
    let out := scBulkLoop reg u now rows 0 store ⟨0, 0, 0, [], 0⟩
    let res := out.2
    some
      ({ status := if res.failed > 0 then 207 else 200
         success := res.failed == 0
         totalProcessed := res.processedCount
         successful := res.created + res.updated
         created := res.created
         updated := res.updated
         failed := res.failed
         errors := res.errors }, out.1)

/-- The business content of a persisted supply-chain record (everything but
the audit stamps). -/
structure SCBusiness where
  provinsi : String
  tahun : Int
  mpp : Rat
  jumlahRantai : Rat
  produksiBeras : Rat
  konsumsiBeras : Rat
  kondisi : Kondisi
  createdBy : String
  userRole : String
  deriving Repr, DecidableEq

/-- Projection of a supply-chain record to its business content. -/
def scBusinessView (r : SCRecord) : SCBusiness :=
  ⟨r.provinsi, r.tahun, r.mpp, r.jumlahRantai, r.produksiBeras,
   r.konsumsiBeras, r.kondisi, r.createdBy, r.userRole⟩

/-- The natural key a valid supply-chain row writes to. -/
def scRowKey (reg : List Province) (row : SCRow) : Option (String × Int) :=
  match scRowCheck reg row with
  | .ok v => some (v.province.name, v.tahun)
  | .error _ => none

/-! ## Province connections
(src/controllers/connectprovince.controller.js lines 68-182 and 519-611)
-/

/-- One raw input row of the connections bulk import (req.body values may be
absent). -/
structure ConnRow where
  sourceProvinceId : Option Nat
  targetProvinceId : Option Nat
  year : Option Int
  deriving Repr, DecidableEq

/-- A persisted ProvinceConnection record (provinceConnectionSchema);
timestamps stamp updatedAt on every save. -/
structure ConnRecord where
  sourceProvinceId : Nat
  targetProvinceId : Nat
  year : Int
  createdAt : Int
  updatedAt : Option Int
  deriving Repr, DecidableEq

/-- Row checks of bulkImportConnections (lines 543-561), in source order:
JS-falsy test on the three fields (a year of 0 is falsy), the raw-value
self-connection test, then resolution of both provinces. -/
def connRowCheck (reg : List Province) (row : ConnRow) :
    Except String (Nat × Nat × Int) :=
  match row.sourceProvinceId, row.targetProvinceId, row.year with
  | some s, some t, some y =>
      if y == 0 then
        .error "Missing required fields"
      else if s == t then
        .error "Source and target provinces cannot be the same"
      else if (findProvince reg s).isNone || (findProvince reg t).isNone then
        .error "One or both provinces not found"
      else
        .ok (s, t, y)
  | _, _, _ => .error "Missing required fields"

/-- ProvinceConnection.create: runs the schema pre-validate hook, so a
self-connection document is rejected with a validation error, any other
document is appended. -/
def connCreate (store : List ConnRecord) (s t : Nat) (y : Int) (now : Int) :
    Except String (List ConnRecord) :=
  if connSchemaValidatesOk s t then
    .ok (store ++ [⟨s, t, y, now, some now⟩])
  else
    .error "ProvinceConnection validation failed: targetProvinceId: Source and target provinces cannot be the same"

/-- One entry of the connections bulk error list (lines 585-588): it carries
the raw input row and the message, and no index field. -/
structure ConnBulkError where
  connection : ConnRow
  error : String
  deriving Repr, DecidableEq

/-- The running tally of the connections bulk import (lines 533-538): no
processed count is kept. -/
structure ConnBulkResult where
  created : Nat
  updated : Nat
  failed : Nat
  errors : List ConnBulkError
  deriving Repr, DecidableEq

/-- The row loop of bulkImportConnections (lines 541-590).  An existing
(source, target, year) connection is re-saved, which only bumps its
timestamp. -/
def connBulkLoop (reg : List Province) (now : Int) :
    List ConnRow → List ConnRecord → ConnBulkResult →
    List ConnRecord × ConnBulkResult
  | [], store, res => (store, res)
  | row :: rest, store, res =>
      match connRowCheck reg row with
      | .error msg =>
          connBulkLoop reg now rest store
            { res with
              failed := res.failed + 1
              errors := res.errors ++ [⟨row, msg⟩] }
      | .ok (s, t, y) =>
          match store.find? (fun r =>
              r.sourceProvinceId == s && r.targetProvinceId == t && r.year == y) with
          | some _ =>
              connBulkLoop reg now rest
                (updateFirst
                  (fun r => r.sourceProvinceId == s && r.targetProvinceId == t && r.year == y)
                  (fun r => { r with updatedAt := some now }) store)
                { res with updated := res.updated + 1 }
          | none =>
              match connCreate store s t y now with
              | .ok store1 =>
                  connBulkLoop reg now rest store1
                    { res with created := res.created + 1 }
              | .error msg =>
                  connBulkLoop reg now rest store
                    { res with
                      failed := res.failed + 1
                      errors := res.errors ++ [⟨row, msg⟩] }

/-- The response of the connections bulk import (lines 595-599): always
status 200 with the tally. -/
structure ConnBulkResponse where
  status : Nat
  success : Bool
  message : String
  result : ConnBulkResult
  deriving Repr, DecidableEq

/-- bulkImportConnections (lines 519-611); none models the 400 rejection of
a missing or empty connections array. -/
def bulkImportConnections (reg : List Province) (now : Int)
    (store : List ConnRecord) (rows : List ConnRow) :
    Option (ConnBulkResponse × List ConnRecord) :=
  if rows.isEmpty then none
  else
    let out := connBulkLoop reg now rows store ⟨0, 0, 0, []⟩
    some ({ status := 200
            success := true
            message := "Bulk import completed"
            result := out.2 }, out.1)

/-- Response of the single-connection create endpoint (status and message;
the data payload echoes the inputs and is omitted). -/
structure ConnCreateResponse where
  status : Nat
  success : Bool
  message : String
  deriving Repr, DecidableEq

/-- createConnection (lines 68-182) past its authentication guard, in source
order: required-field 400s, the raw-value self-connection 400, the province
404, then upsert by (source, target, year); re-saving an existing connection
only bumps its timestamp. -/
def createConnection (reg : List Province) (now : Int)
    (store : List ConnRecord)
    (sourceProvinceId targetProvinceId : Option Nat) (year : Option Int) :
    ConnCreateResponse × List ConnRecord :=
  match sourceProvinceId, targetProvinceId with
  | some s, some t =>
      match year with
      | some y =>
          if y == 0 then
            (⟨400, false, "Year is required"⟩, store)
          else if s == t then
            (⟨400, false, "Source and target provinces cannot be the same"⟩, store)
          else if (findProvince reg s).isNone || (findProvince reg t).isNone then
            (⟨404, false, "One or both provinces not found"⟩, store)
          else
            match store.find? (fun r =>
                r.sourceProvinceId == s && r.targetProvinceId == t && r.year == y) with
            | some _ =>
                (⟨200, true, "Connection updated successfully"⟩,
                 updateFirst
                   (fun r => r.sourceProvinceId == s && r.targetProvinceId == t && r.year == y)
                   (fun r => { r with updatedAt := some now }) store)
            | none =>
                match connCreate store s t y now with
                | .ok store1 =>
                    (⟨201, true, "Connection created successfully"⟩, store1)
                | .error _ =>
                    (⟨400, false, "Validation error"⟩, store)
      | none => (⟨400, false, "Year is required"⟩, store)
  | _, _ => (⟨400, false, "Source and target province IDs are required"⟩, store)

/-- The expected error list of a connections batch: one entry per failing row
in input order (row failure is independent of the store, since an existing
key updates rather than fails, and a created row has already passed the
self-connection test). -/
def connExpectedErrors (reg : List Province) : List ConnRow → List ConnBulkError
  | [] => []
  | row :: rest =>
      match connRowCheck reg row with
      | .error msg => ⟨row, msg⟩ :: connExpectedErrors reg rest
      | .ok _ => connExpectedErrors reg rest

/-- No record of the connection store is a self-loop. -/
def noSelfLoop (store : List ConnRecord) : Prop :=
  ∀ r ∈ store, r.sourceProvinceId ≠ r.targetProvinceId

/-! ## Map composition (src/controllers/map.controller.js)

The map read paths consume the FoodSecurity document shape of
src/models/foodsecurity.model.js (dependent_variable.indeks_ketahanan_pangan
with an attached category) and the SupplyChain records. -/

/-- A FoodSecurity document as read by the map controller. -/
structure FSDoc where
  provinsi : String
  tahun : Int
  indeks : Rat
  kategori : Option Nat
  deriving Repr, DecidableEq

/-- The database state visible to the map controller. -/
structure MapState where
  provinces : List Province
  fs : List FSDoc
  sc : List SCRecord
  deriving Repr, DecidableEq

/-- Body of a map-composition failure response.  Keys absent from the JSON
of a given path are none: the food-security 404 (map.controller.js lines
34-40) carries no availableYears, while the supply-chain 404 (lines 145-157)
carries the distinct years with data plus two counts. -/
structure MapFailure where
  status : Nat
  message : String
  year : Int
  availableYears : Option (List Int)
  totalSupplyChainRecords : Option Nat
  totalProvincesWithGeoData : Option Nat
  deriving Repr, DecidableEq

/-- One feature of the food-security map output (lines 59-73, geometry
omitted). -/
structure FSFeature where
  provinceId : Nat
  provinceName : String
  provinceCode : String
  year : Int
  foodSecurityIndex : Rat
  category : Option Nat
  deriving Repr, DecidableEq

/-- The success payload of the food-security map (lines 76-85). -/
structure FSGeo where
  features : List FSFeature
  year : Int
  totalProvinces : Nat
  deriving Repr, DecidableEq

/-- Result of the food-security map endpoint. -/
inductive FSMapResult where
  | badRequest (message : String)
  | fail (f : MapFailure)
  | ok (g : FSGeo)
  deriving Repr, DecidableEq

/-- JS forEach assignment into a keyed object: the last row with the given
province name wins. -/
def lastWithName (rows : List FSDoc) (name : String) : Option FSDoc :=
  (rows.filter (fun d => d.provinsi == name)).getLast?

/-- getFoodSecurityMapData (map.controller.js lines 11-100): year-range 400,
an optional category filter applied to the fact query, a bare 404 when the
year (with filter) has no rows, otherwise one feature per province that has
geometry and a matching fact row. -/
def getFoodSecurityMapData (st : MapState) (year : Int)
    (category : Option Nat) : FSMapResult :=
  if year < 2000 || 2100 < year then
    .badRequest "Invalid year. Year must be between 2000 and 2100"
  else
    let rows := st.fs.filter (fun d =>
      d.tahun == year &&
      (match category with
       | none => true
       | some c => d.kategori == some c))
    if rows.isEmpty then
      .fail ⟨404, "No food security data found for year " ++ toString year,
             year, none, none, none⟩
    else
      let provinces := st.provinces.filter (fun p => p.hasGeoData)
      let features := (provinces.filter (fun p =>
          (lastWithName rows p.name).isSome)).map (fun p =>
        match lastWithName rows p.name with
        | some d => (⟨p.id, p.name, p.code, year, d.indeks, d.kategori⟩ : FSFeature)
        | none => ⟨p.id, p.name, p.code, year, 0, none⟩)
      .ok ⟨features, year, features.length⟩

/-- The three-way balance classification of the supply-chain map feature
(map.controller.js line 186), computed from the production-consumption
balance. -/
def scMapBalanceType (balance : Rat) : BalanceType :=
  if balance > 0 then .surplus
  else if balance < 0 then .deficit
  else .balanced

/-- One feature of the supply-chain map output (lines 174-191, geometry
omitted). -/
structure SCFeature where
  provinceId : Nat
  provinceName : String
  provinceCode : String
  year : Int
  produksiBeras : Rat
  konsumsiBeras : Rat
  balance : Rat
  balanceType : BalanceType
  deriving Repr, DecidableEq

/-- The success payload of the supply-chain map (lines 196-210). -/
structure SCGeo where
  features : List SCFeature
  year : Int
  totalProvinces : Nat
  deriving Repr, DecidableEq

/-- Result of the supply-chain map endpoint. -/
inductive SCMapResult where
  | badRequest (message : String)
  | fail (f : MapFailure)
  | ok (g : SCGeo)
  deriving Repr, DecidableEq

/-- Lexicographic comparison of character lists by code point (the string
comparison of the JS default sort). -/
def charListLe : List Char → List Char → Bool
  | [], _ => true
  | _ :: _, [] => false
  | a :: as, b :: bs => if a = b then charListLe as bs else a.toNat < b.toNat

/-- JS default Array.sort on the distinct years (line 153): elements are
compared as decimal strings. -/
def jsDefaultSortInts (xs : List Int) : List Int :=
  xs.mergeSort (fun a b => charListLe (toString a).data (toString b).data)

/-- The condition filter of the supply-chain map query (lines 123-131): only
the three known condition strings add a comparison, anything else leaves the
year query unchanged. -/
def scConditionHolds (condition : Option String) (r : SCRecord) : Bool :=
  match condition with
  | some "surplus" => r.produksiBeras > r.konsumsiBeras
  | some "deficit" => r.produksiBeras < r.konsumsiBeras
  | some "balanced" => r.produksiBeras == r.konsumsiBeras
  | _ => true

/-- JS forEach assignment for supply-chain rows: the last row with the given
province name wins. -/
def lastSCWithName (rows : List SCRecord) (name : String) : Option SCRecord :=
  (rows.filter (fun d => d.provinsi == name)).getLast?

/-- getSupplyChainMapData (map.controller.js lines 105-225): year-range 400;
when the year (with condition filter) has no rows, a 404 carrying the
distinct years of the whole collection (JS-default sorted) and two counts;
otherwise one feature per province that has geometry and a matching row. -/
def getSupplyChainMapData (st : MapState) (year : Int)
    (condition : Option String) : SCMapResult :=
  if year < 2000 || 2100 < year then
    .badRequest "Invalid year. Year must be between 2000 and 2100"
  else
    let rows := st.sc.filter (fun r =>
      r.tahun == year && scConditionHolds condition r)
    let provinces := st.provinces.filter (fun p => p.hasGeoData)
    if rows.isEmpty then
      .fail ⟨404, "No supply chain data found for year " ++ toString year,
             year,
             some (jsDefaultSortInts ((st.sc.map (fun r => r.tahun)).dedup)),
             some st.sc.length,
             some provinces.length⟩
    else
      let features := (provinces.filter (fun p =>
          (lastSCWithName rows p.name).isSome)).map (fun p =>
        match lastSCWithName rows p.name with
        | some d =>
            (⟨p.id, p.name, p.code, year, d.produksiBeras, d.konsumsiBeras,
              d.produksiBeras - d.konsumsiBeras,
              scMapBalanceType (d.produksiBeras - d.konsumsiBeras)⟩ : SCFeature)
        | none => ⟨p.id, p.name, p.code, year, 0, 0, 0, .balanced⟩)
      .ok ⟨features, year, features.length⟩

/-! ## Connection statistics
(src/controllers/connectprovince.controller.js lines 459-516) -/

/-- Out-degree of a province id over the edge set. -/
def outDegree (conns : List ConnRecord) (pid : Nat) : Nat :=
  (conns.filter (fun c => c.sourceProvinceId == pid)).length

/-- In-degree of a province id over the edge set. -/
def inDegree (conns : List ConnRecord) (pid : Nat) : Nat :=
  (conns.filter (fun c => c.targetProvinceId == pid)).length

/-- One per-province entry of the statistics payload (lines 482-491). -/
structure StatEntry where
  provinceId : Nat
  name : String
  code : String
  connectionsAsSource : Nat
  connectionsAsTarget : Nat
  totalConnections : Nat
  deriving Repr, DecidableEq

/-- The statistics payload (lines 497-502). -/
structure ConnStatistics where
  totalConnections : Nat
  years : List Int
  connectionsByYear : List (Int × Nat)
  provinceStats : List StatEntry
  deriving Repr, DecidableEq

/-- getConnectionStatistics (lines 459-516) together with the number of
storage queries it issues: one countDocuments, one distinct, one
countDocuments per distinct year, one Province.find, then two countDocuments
per province; the per-province tallies are sorted descending by total (the
stable JS sort with comparator on totalConnections) and cut to the top
10. -/
def getConnectionStatistics (provinces : List Province)
    (conns : List ConnRecord) : ConnStatistics × Nat :=
  let years := (conns.map (fun c => c.year)).dedup
  let byYear := years.map (fun y => (y, (conns.filter (fun c => c.year == y)).length))
  let stats := provinces.map (fun p =>
    ({ provinceId := p.id
       name := p.name
       code := p.code
       connectionsAsSource := outDegree conns p.id
       connectionsAsTarget := inDegree conns p.id
       totalConnections := outDegree conns p.id + inDegree conns p.id } : StatEntry))
  let sorted := stats.mergeSort (fun a b =>
    decide (b.totalConnections ≤ a.totalConnections))
  (⟨conns.length, years, byYear, sorted.take 10⟩,
   1 + 1 + years.length + 1 + 2 * provinces.length)

/-! ## Derived row-to-record maps used by the idempotence statements -/

/-- The record a valid supply-chain row creates. -/
def scRowFreshD (reg : List Province) (u : UserCtx) (now : Int)
    (row : SCRow) : SCRecord :=
  match scRowCheck reg row with
  | .ok v => scFreshRecord u now v row
  | .error _ => scFreshRecord u now ⟨⟨0, "", "", false⟩, 0⟩ row

/-- The record a second identical run writes over the record the first run
created (the old record passed to the set operation is the first-run one). -/
def scRowUpdD (reg : List Province) (u1 : UserCtx) (t1 : Int) (u : UserCtx)
    (t2 : Int) (row : SCRow) : SCRecord :=
  match scRowCheck reg row with
  | .ok v => scUpdatedRecord (scRowFreshD reg u1 t1 row) u t2 v row
  | .error _ => scUpdatedRecord (scRowFreshD reg u1 t1 row) u t2 ⟨⟨0, "", "", false⟩, 0⟩ row

/-! ## Helper lemmas -/

/-- Band lemma: indices at most 37.61 are category 1. -/
lemma detCat_band1 {indeks : Rat} (h : indeks ≤ mkRat 3761 100) :
    determineFoodSecurityCategory indeks =
      ⟨some 1, "Sangat Rentan", "Prioritas 1 (Sangat Rentan)"⟩ := by
  rw [determineFoodSecurityCategory, if_pos h]

/-- Band lemma for category 2. -/
lemma detCat_band2 {indeks : Rat} (h1 : mkRat 3761 100 < indeks)
    (h2 : indeks ≤ mkRat 4827 100) :
    determineFoodSecurityCategory indeks =
      ⟨some 2, "Rentan", "Prioritas 2 (Rentan)"⟩ := by
  rw [determineFoodSecurityCategory, if_neg (not_le.mpr h1), if_pos ⟨h1, h2⟩]

/-- Band lemma for category 3. -/
lemma detCat_band3 {indeks : Rat} (h1 : mkRat 4827 100 < indeks)
    (h2 : indeks ≤ mkRat 5711 100) :
    determineFoodSecurityCategory indeks =
      ⟨some 3, "Agak Rentan", "Prioritas 3 (Agak Rentan)"⟩ := by
  have t12 : mkRat 3761 100 < mkRat 4827 100 := by decide
  rw [determineFoodSecurityCategory, if_neg (not_le.mpr (t12.trans h1)),
    if_neg (fun hc => absurd hc.2 (not_le.mpr h1)), if_pos ⟨h1, h2⟩]

/-- Band lemma for category 4. -/
lemma detCat_band4 {indeks : Rat} (h1 : mkRat 5711 100 < indeks)
    (h2 : indeks ≤ mkRat 6596 100) :
    determineFoodSecurityCategory indeks =
      ⟨some 4, "Agak Tahan", "Prioritas 4 (Agak Tahan)"⟩ := by
  have t13 : mkRat 3761 100 < mkRat 5711 100 := by decide
  have t23 : mkRat 4827 100 < mkRat 5711 100 := by decide
  rw [determineFoodSecurityCategory, if_neg (not_le.mpr (t13.trans h1)),
    if_neg (fun hc => absurd hc.2 (not_le.mpr (t23.trans h1))),
    if_neg (fun hc => absurd hc.2 (not_le.mpr h1)), if_pos ⟨h1, h2⟩]

/-- Band lemma for category 5. -/
lemma detCat_band5 {indeks : Rat} (h1 : mkRat 6596 100 < indeks)
    (h2 : indeks ≤ mkRat 7440 100) :
    determineFoodSecurityCategory indeks =
      ⟨some 5, "Tahan", "Prioritas 5 (Tahan)"⟩ := by
  have t14 : mkRat 3761 100 < mkRat 6596 100 := by decide
  have t24 : mkRat 4827 100 < mkRat 6596 100 := by decide
  have t34 : mkRat 5711 100 < mkRat 6596 100 := by decide
  rw [determineFoodSecurityCategory, if_neg (not_le.mpr (t14.trans h1)),
    if_neg (fun hc => absurd hc.2 (not_le.mpr (t24.trans h1))),
    if_neg (fun hc => absurd hc.2 (not_le.mpr (t34.trans h1))),
    if_neg (fun hc => absurd hc.2 (not_le.mpr h1)), if_pos ⟨h1, h2⟩]

/-- Band lemma for category 6. -/
lemma detCat_band6 {indeks : Rat} (h1 : mkRat 7440 100 < indeks) :
    determineFoodSecurityCategory indeks =
      ⟨some 6, "Sangat Tahan", "Prioritas 6 (Sangat Tahan)"⟩ := by
  have t15 : mkRat 3761 100 < mkRat 7440 100 := by decide
  have t25 : mkRat 4827 100 < mkRat 7440 100 := by decide
  have t35 : mkRat 5711 100 < mkRat 7440 100 := by decide
  have t45 : mkRat 6596 100 < mkRat 7440 100 := by decide
  rw [determineFoodSecurityCategory, if_neg (not_le.mpr (t15.trans h1)),
    if_neg (fun hc => absurd hc.2 (not_le.mpr (t25.trans h1))),
    if_neg (fun hc => absurd hc.2 (not_le.mpr (t35.trans h1))),
    if_neg (fun hc => absurd hc.2 (not_le.mpr (t45.trans h1))),
    if_neg (fun hc => absurd hc.2 (not_le.mpr h1)), if_pos h1]

/-- The six threshold bands cover every rational index. -/
lemma detCat_total (indeks : Rat) :
    ∃ k, (determineFoodSecurityCategory indeks).kategori = some k ∧
      1 ≤ k ∧ k ≤ 6 := by
  rcases le_or_lt indeks (mkRat 3761 100) with h1 | h1
  · exact ⟨1, by rw [detCat_band1 h1], le_refl 1, by norm_num⟩
  rcases le_or_lt indeks (mkRat 4827 100) with h2 | h2
  · exact ⟨2, by rw [detCat_band2 h1 h2], by norm_num, by norm_num⟩
  rcases le_or_lt indeks (mkRat 5711 100) with h3 | h3
  · exact ⟨3, by rw [detCat_band3 h2 h3], by norm_num, by norm_num⟩
  rcases le_or_lt indeks (mkRat 6596 100) with h4 | h4
  · exact ⟨4, by rw [detCat_band4 h3 h4], by norm_num, by norm_num⟩
  rcases le_or_lt indeks (mkRat 7440 100) with h5 | h5
  · exact ⟨5, by rw [detCat_band5 h4 h5], by norm_num, by norm_num⟩
  · exact ⟨6, by rw [detCat_band6 h5], by norm_num, le_refl 6⟩

/-- updateFirst walks past a prefix with no match. -/
lemma updateFirst_append_of_none {α : Type} {p : α → Bool} {f : α → α}
    {xs : List α} (ys : List α) (h : ∀ x ∈ xs, ¬p x = true) :
    updateFirst p f (xs ++ ys) = xs ++ updateFirst p f ys := by
  induction xs with
  | nil => simp
  | cons x xs ih =>
      have hx : p x = false := by
        have := h x (List.mem_cons_self x xs)
        exact Bool.not_eq_true _ ▸ this
      simp only [List.cons_append, updateFirst, hx, Bool.false_eq_true,
        if_false, List.cons.injEq, true_and]
      exact ih (fun a ha => h a (List.mem_cons_of_mem _ ha))

/-- Every element of updateFirst p f l is an element of l or the image under
f of an element of l. -/
lemma mem_updateFirst {α : Type} {p : α → Bool} {f : α → α} {l : List α}
    {a : α} (h : a ∈ updateFirst p f l) : a ∈ l ∨ ∃ b ∈ l, a = f b := by
  induction l with
  | nil => simp [updateFirst] at h
  | cons x xs ih =>
      rw [updateFirst] at h
      by_cases hx : p x = true
      · rw [if_pos hx] at h
        rcases List.mem_cons.mp h with rfl | h2
        · exact Or.inr ⟨x, List.mem_cons_self x xs, rfl⟩
        · exact Or.inl (List.mem_cons_of_mem _ h2)
      · rw [if_neg hx] at h
        rcases List.mem_cons.mp h with rfl | h2
        · exact Or.inl (List.mem_cons_self _ _)
        · rcases ih h2 with h3 | ⟨b, hb, rfl⟩
          · exact Or.inl (List.mem_cons_of_mem _ h3)
          · exact Or.inr ⟨b, List.mem_cons_of_mem _ hb, rfl⟩

/-- Accounting of the food-security loop on an arbitrary batch: the store
is never modified, every row is processed, every row is tallied failed (by
its controller check or by the always-failing persistence step), and the
error list extends by exactly the expected per-row entries. -/
lemma fsBulkLoop_spec (reg : List Province) (u : UserCtx) (now : Int) :
    ∀ (rows : List FSRow) (idx : Nat) (store : List FSRecord)
      (res : FSBulkResult),
    (fsBulkLoop reg u now rows idx store res).1 = store ∧
    (fsBulkLoop reg u now rows idx store res).2.processedCount =
      res.processedCount + rows.length ∧
    (fsBulkLoop reg u now rows idx store res).2.created = res.created ∧
    (fsBulkLoop reg u now rows idx store res).2.updated = res.updated ∧
    (fsBulkLoop reg u now rows idx store res).2.failed =
      res.failed + rows.length ∧
    (fsBulkLoop reg u now rows idx store res).2.errors =
      res.errors ++ fsExpectedErrors reg rows idx := by
  intro rows
  induction rows with
  | nil => intro idx store res; simp [fsBulkLoop, fsExpectedErrors]
  | cons row rest ih =>
      intro idx store res
      cases hchk : fsRowCheck reg row with
      | error e =>
          obtain ⟨h0, h1, h2, h3, h4, h5⟩ := ih (idx + 1) store
            { res with
              processedCount := res.processedCount + 1
              failed := res.failed + 1
              errors := res.errors ++ [⟨idx + 1, row, e⟩] }
          simp only [fsBulkLoop, hchk]
          refine ⟨h0, ?_, h2, h3, ?_, ?_⟩
          · rw [h1]; simp; omega
          · rw [h4]; simp only [List.length_cons]; omega
          · rw [h5]; simp only [fsExpectedErrors, hchk]; simp
      | ok v =>
          simp only [fsBulkLoop, hchk]
          cases hfind : store.find? (fun r =>
              r.provinsi == v.province.name && r.tahun == v.tahun) with
          | some w =>
              obtain ⟨h0, h1, h2, h3, h4, h5⟩ := ih (idx + 1) store
                { res with
                  processedCount := res.processedCount + 1
                  failed := res.failed + 1
                  errors := res.errors ++ [⟨idx + 1, row, fsCreateValidationMsg row⟩] }
              refine ⟨h0, ?_, h2, h3, ?_, ?_⟩
              · rw [h1]; simp; omega
              · rw [h4]; simp only [List.length_cons]; omega
              · rw [h5]; simp only [fsExpectedErrors, hchk]; simp
          | none =>
              obtain ⟨h0, h1, h2, h3, h4, h5⟩ := ih (idx + 1) store
                { res with
                  processedCount := res.processedCount + 1
                  failed := res.failed + 1
                  errors := res.errors ++ [⟨idx + 1, row, fsCreateValidationMsg row⟩] }
              refine ⟨h0, ?_, h2, h3, ?_, ?_⟩
              · rw [h1]; simp; omega
              · rw [h4]; simp only [List.length_cons]; omega
              · rw [h5]; simp only [fsExpectedErrors, hchk]; simp

/-- Every expected error entry carries the 1-based position of its failing
input row, and its message is either the failed controller check of that row
or the ValidationError of the always-failing persistence step. -/
lemma fsExpectedErrors_mem (reg : List Province) :
    ∀ (rows : List FSRow) (idx : Nat), ∀ e ∈ fsExpectedErrors reg rows idx,
    idx + 1 ≤ e.index ∧ e.index ≤ idx + rows.length ∧
    rows[e.index - idx - 1]? = some e.data ∧
    (fsRowCheck reg e.data = Except.error e.error ∨
      ((fsRowCheck reg e.data).isOk = true ∧
        e.error = fsCreateValidationMsg e.data)) := by
  intro rows
  induction rows with
  | nil => intro idx e he; simp [fsExpectedErrors] at he
  | cons row rest ih =>
      intro idx e he
      cases hchk : fsRowCheck reg row with
      | error msg =>
          simp only [fsExpectedErrors, hchk] at he
          rcases List.mem_cons.mp he with rfl | h2
          · exact ⟨le_refl _, by simp, by simp, Or.inl (by rw [hchk])⟩
          · obtain ⟨ha, hb, hc, hd⟩ := ih (idx + 1) e h2
            refine ⟨by omega, by simp only [List.length_cons]; omega, ?_, hd⟩
            have hidx : e.index - idx - 1 = (e.index - (idx + 1) - 1) + 1 := by
              omega
            rw [hidx]
            simpa using hc
      | ok v =>
          simp only [fsExpectedErrors, hchk] at he
          rcases List.mem_cons.mp he with rfl | h2
          · exact ⟨le_refl _, by simp, by simp,
              Or.inr ⟨by rw [hchk]; rfl, rfl⟩⟩
          · obtain ⟨ha, hb, hc, hd⟩ := ih (idx + 1) e h2
            refine ⟨by omega, by simp only [List.length_cons]; omega, ?_, hd⟩
            have hidx : e.index - idx - 1 = (e.index - (idx + 1) - 1) + 1 := by
              omega
            rw [hidx]
            simpa using hc

/-- The expected error list has one entry per input row. -/
lemma fsExpectedErrors_length (reg : List Province) :
    ∀ (rows : List FSRow) (idx : Nat),
    (fsExpectedErrors reg rows idx).length = rows.length := by
  intro rows
  induction rows with
  | nil => intro idx; rfl
  | cons row rest ih =>
      intro idx
      cases h : fsRowCheck reg row with
      | error msg => simp [fsExpectedErrors, h, ih]
      | ok v => simp [fsExpectedErrors, h, ih]

/-- Closed form of the food-security bulk import on any nonempty batch:
every row is tallied failed (status 207, success false), the error list is
the expected per-row list, and the store is returned unchanged. -/
lemma bulkImportFoodSecurity_run (reg : List Province) (u : UserCtx)
    (now : Int) (store : List FSRecord) (rows : List FSRow)
    (hne : rows ≠ []) :
    bulkImportFoodSecurity reg u now store rows =
      some ({ status := 207
              success := false
              totalProcessed := rows.length
              successful := 0
              created := 0
              updated := 0
              failed := rows.length
              errors := fsExpectedErrors reg rows 0 }, store) := by
  have he : rows.isEmpty = false := by
    cases rows with
    | nil => exact absurd rfl hne
    | cons a l => rfl
  have hlen : rows.length ≠ 0 := by
    cases rows with
    | nil => exact absurd rfl hne
    | cons a l => simp
  obtain ⟨h1, h2, h3, h4, h5, h6⟩ :=
    fsBulkLoop_spec reg u now rows 0 store ⟨0, 0, 0, [], 0⟩
  have hfail : (fsBulkLoop reg u now rows 0 store
      ⟨0, 0, 0, [], 0⟩).2.failed = rows.length := by
    rw [h5]; simp
  have hpc : (fsBulkLoop reg u now rows 0 store
      ⟨0, 0, 0, [], 0⟩).2.processedCount = rows.length := by
    rw [h2]; simp
  have hcre : (fsBulkLoop reg u now rows 0 store
      ⟨0, 0, 0, [], 0⟩).2.created = 0 := h3
  have hupd : (fsBulkLoop reg u now rows 0 store
      ⟨0, 0, 0, [], 0⟩).2.updated = 0 := h4
  have herr : (fsBulkLoop reg u now rows 0 store
      ⟨0, 0, 0, [], 0⟩).2.errors = fsExpectedErrors reg rows 0 := by
    rw [h6]; rfl
  simp only [bulkImportFoodSecurity, he, Bool.false_eq_true, if_false,
    Option.some.injEq, Prod.mk.injEq]
  refine ⟨?_, h1⟩
  rw [FSBulkResponse.mk.injEq]
  refine ⟨?_, ?_, hpc, ?_, hcre, hupd, hfail, herr⟩
  · rw [hfail, if_pos (by omega)]
  · rw [hfail]
    exact beq_eq_false_iff_ne.mpr hlen
  · rw [hcre, hupd]

/-- A successful connection row check forces distinct raw source and target
ids. -/
lemma connRowCheck_ok_ne {reg : List Province} {row : ConnRow}
    {s t : Nat} {y : Int} (h : connRowCheck reg row = Except.ok (s, t, y)) :
    s ≠ t := by
  obtain ⟨so, tgt, yo⟩ := row
  cases so with
  | none => simp [connRowCheck] at h
  | some s0 =>
    cases tgt with
    | none => simp [connRowCheck] at h
    | some t0 =>
      cases yo with
      | none => simp [connRowCheck] at h
      | some y0 =>
          simp only [connRowCheck] at h
          split_ifs at h with h1 h2 h3
          simp only [Except.ok.injEq, Prod.mk.injEq] at h
          obtain ⟨hs, ht, hy⟩ := h
          subst hs; subst ht
          intro hc
          exact h2 (by simp [hc])

/-- Accounting of the connections loop on an arbitrary batch: the three
tallies sum to the batch length and the error list extends by exactly the
expected per-row failures, each carrying its raw row and message. -/
lemma connBulkLoop_spec (reg : List Province) (now : Int) :
    ∀ (rows : List ConnRow) (store : List ConnRecord) (res : ConnBulkResult),
    (connBulkLoop reg now rows store res).2.created +
      (connBulkLoop reg now rows store res).2.updated +
      (connBulkLoop reg now rows store res).2.failed =
      res.created + res.updated + res.failed + rows.length ∧
    (connBulkLoop reg now rows store res).2.errors =
      res.errors ++ connExpectedErrors reg rows ∧
    (connBulkLoop reg now rows store res).2.failed =
      res.failed + (connExpectedErrors reg rows).length := by
  intro rows
  induction rows with
  | nil => intro store res; simp [connBulkLoop, connExpectedErrors]
  | cons row rest ih =>
      intro store res
      cases hchk : connRowCheck reg row with
      | error e =>
          obtain ⟨h1, h2, h3⟩ := ih store
            { res with
              failed := res.failed + 1
              errors := res.errors ++ [⟨row, e⟩] }
          simp only [connBulkLoop, hchk]
          refine ⟨?_, ?_, ?_⟩
          · rw [h1]; simp; omega
          · rw [h2]; simp only [connExpectedErrors, hchk]; simp
          · rw [h3]; simp only [connExpectedErrors, hchk]; simp; omega
      | ok v =>
          obtain ⟨s, t, y⟩ := v
          have hne : s ≠ t := connRowCheck_ok_ne hchk
          simp only [connBulkLoop, hchk]
          cases hfind : store.find? (fun r =>
              r.sourceProvinceId == s && r.targetProvinceId == t && r.year == y) with
          | some w =>
              obtain ⟨h1, h2, h3⟩ := ih
                (updateFirst
                  (fun r => r.sourceProvinceId == s && r.targetProvinceId == t && r.year == y)
                  (fun r => { r with updatedAt := some now }) store)
                { res with updated := res.updated + 1 }
              refine ⟨?_, ?_, ?_⟩
              · rw [h1]; simp; omega
              · rw [h2]; simp only [connExpectedErrors, hchk]
              · rw [h3]; simp only [connExpectedErrors, hchk]
          | none =>
              have hcr : connCreate store s t y now =
                  Except.ok (store ++ [⟨s, t, y, now, some now⟩]) := by
                rw [connCreate, if_pos (by simp [connSchemaValidatesOk, hne])]
              obtain ⟨h1, h2, h3⟩ := ih (store ++ [⟨s, t, y, now, some now⟩])
                { res with created := res.created + 1 }
              simp only [hcr]
              refine ⟨?_, ?_, ?_⟩
              · rw [h1]; simp; omega
              · rw [h2]; simp only [connExpectedErrors, hchk]
              · rw [h3]; simp only [connExpectedErrors, hchk]

/-- The connections loop never introduces a self-loop into the store. -/
lemma connBulkLoop_noSelfLoop (reg : List Province) (now : Int) :
    ∀ (rows : List ConnRow) (store : List ConnRecord) (res : ConnBulkResult),
    noSelfLoop store → noSelfLoop (connBulkLoop reg now rows store res).1 := by
  intro rows
  induction rows with
  | nil => intro store res h; simpa [connBulkLoop] using h
  | cons row rest ih =>
      intro store res h
      cases hchk : connRowCheck reg row with
      | error e => simp only [connBulkLoop, hchk]; exact ih _ _ h
      | ok v =>
          obtain ⟨s, t, y⟩ := v
          have hne : s ≠ t := connRowCheck_ok_ne hchk
          simp only [connBulkLoop, hchk]
          cases hfind : store.find? (fun r =>
              r.sourceProvinceId == s && r.targetProvinceId == t && r.year == y) with
          | some w =>
              apply ih
              intro r hr
              rcases mem_updateFirst hr with h2 | ⟨b, hb, rfl⟩
              · exact h r h2
              · exact h b hb
          | none =>
              have hcr : connCreate store s t y now =
                  Except.ok (store ++ [⟨s, t, y, now, some now⟩]) := by
                rw [connCreate, if_pos (by simp [connSchemaValidatesOk, hne])]
              simp only [hcr]
              apply ih
              intro r hr
              rcases List.mem_append.mp hr with h2 | h2
              · exact h r h2
              · have : r = (⟨s, t, y, now, some now⟩ : ConnRecord) := by
                  simpa using h2
                subst this
                exact hne

/-- A supply-chain store in which no record carries the key (name, t) has
no findOne match for it. -/
lemma scKey_find_none {store : List SCRecord} {name : String} {t : Int}
    (h : ∀ rec ∈ store, ¬(rec.provinsi = name ∧ rec.tahun = t)) :
    store.find? (fun r => r.provinsi == name && r.tahun == t) = none := by
  rw [List.find?_eq_none]
  intro r hr hpr
  exact h r hr (by simpa [Bool.and_eq_true, beq_iff_eq] using hpr)

/-- A full row (all four numeric fields present) submitted by a principal
with a valid role passes the create validation of SupplyChain.create. -/
lemma scCreateValidate_none {row : SCRow} {role : String}
    (h1 : row.mpp.isSome = true) (h2 : row.jumlahRantai.isSome = true)
    (h3 : row.produksiBeras.isSome = true)
    (h4 : row.konsumsiBeras.isSome = true)
    (h5 : scUserRoles.contains role = true) :
    scCreateValidate row role = none := by
  obtain ⟨m, hm⟩ := Option.isSome_iff_exists.mp h1
  obtain ⟨j, hj⟩ := Option.isSome_iff_exists.mp h2
  obtain ⟨p, hp⟩ := Option.isSome_iff_exists.mp h3
  obtain ⟨k, hk⟩ := Option.isSome_iff_exists.mp h4
  have h5m : role ∈ scUserRoles := by simpa using h5
  simp [scCreateValidate, hm, hj, hp, hk, h5m]

/-- Creation run of the supply-chain loop: valid full rows from a
valid-role principal with fresh pairwise-distinct keys all take the create
branch, appending their records in order. -/
lemma scBulkLoop_create_run (reg : List Province) (u : UserCtx) (now : Int)
    (hrole : scUserRoles.contains u.role = true) :
    ∀ (rows : List SCRow) (idx : Nat) (store : List SCRecord)
      (res : SCBulkResult),
    (∀ r ∈ rows, (scRowCheck reg r).isOk = true) →
    (∀ r ∈ rows, r.mpp.isSome = true ∧ r.jumlahRantai.isSome = true ∧
      r.produksiBeras.isSome = true ∧ r.konsumsiBeras.isSome = true) →
    (∀ r ∈ rows, ∀ rec ∈ store,
      some (rec.provinsi, rec.tahun) ≠ scRowKey reg r) →
    (rows.map (scRowKey reg)).Nodup →
    scBulkLoop reg u now rows idx store res =
      (store ++ rows.map (scRowFreshD reg u now),
       { created := res.created + rows.length
         updated := res.updated
         failed := res.failed
         errors := res.errors
         processedCount := res.processedCount + rows.length }) := by
  intro rows
  induction rows with
  | nil => intro idx store res hval hfull hfresh hnodup; simp [scBulkLoop]
  | cons row rest ih =>
      intro idx store res hval hfull hfresh hnodup
      have hok := hval row (List.mem_cons_self _ _)
      cases hchk : scRowCheck reg row with
      | error e => rw [hchk] at hok; simp [Except.isOk, Except.toBool] at hok
      | ok v =>
          have hkey : scRowKey reg row = some (v.province.name, v.tahun) := by
            rw [scRowKey, hchk]
          have hnone : store.find? (fun r =>
              r.provinsi == v.province.name && r.tahun == v.tahun) = none := by
            apply scKey_find_none
            intro rec hrec hcontra
            apply hfresh row (List.mem_cons_self _ _) rec hrec
            rw [hkey, hcontra.1, hcontra.2]
          obtain ⟨hm, hj, hp, hk⟩ := hfull row (List.mem_cons_self _ _)
          have hcv : scCreateValidate row u.role = none :=
            scCreateValidate_none hm hj hp hk hrole
          have hfreshD : scRowFreshD reg u now row = scFreshRecord u now v row := by
            rw [scRowFreshD, hchk]
          have hnd := hnodup
          rw [List.map_cons, List.nodup_cons] at hnd
          simp only [scBulkLoop, hchk, hnone, hcv]
          rw [ih (idx + 1) (store ++ [scFreshRecord u now v row])
            { res with
              processedCount := res.processedCount + 1
              created := res.created + 1 }
            (fun r hr => hval r (List.mem_cons_of_mem _ hr))
            (fun r hr => hfull r (List.mem_cons_of_mem _ hr))
            ?_ hnd.2]
          · rw [List.map_cons, hfreshD, List.append_assoc, List.singleton_append]
            refine congrArg _ ?_
            simp only [SCBulkResult.mk.injEq, List.length_cons]
            exact ⟨by omega, trivial, trivial, trivial, by omega⟩
          · intro r hr rec hrec
            rcases List.mem_append.mp hrec with h2 | h2
            · exact hfresh r (List.mem_cons_of_mem _ hr) rec h2
            · have hrec2 : rec = scFreshRecord u now v row := by simpa using h2
              subst hrec2
              intro hcontra
              apply hnd.1
              have heq2 : scRowKey reg row = scRowKey reg r := by
                rw [hkey, ← hcontra]; rfl
              rw [heq2]
              exact List.mem_map_of_mem _ hr

/-- Update run of the supply-chain loop: re-submitting valid full rows with
pairwise-distinct keys over a store holding exactly the records a first run
created (after a key-disjoint prefix) takes the update branch for every
row. -/
lemma scBulkLoop_update_run (reg : List Province) (u : UserCtx) (t2 : Int)
    (u1 : UserCtx) (t1 : Int)
    (hrole : scUserRoles.contains u.role = true) :
    ∀ (pending : List SCRow) (idx : Nat) (pre : List SCRecord)
      (res : SCBulkResult),
    (∀ r ∈ pending, (scRowCheck reg r).isOk = true) →
    (∀ r ∈ pending, ∀ rec ∈ pre,
      some (rec.provinsi, rec.tahun) ≠ scRowKey reg r) →
    (pending.map (scRowKey reg)).Nodup →
    scBulkLoop reg u t2 pending idx
      (pre ++ pending.map (scRowFreshD reg u1 t1)) res =
      (pre ++ pending.map (scRowUpdD reg u1 t1 u t2),
       { created := res.created
         updated := res.updated + pending.length
         failed := res.failed
         errors := res.errors
         processedCount := res.processedCount + pending.length }) := by
  intro pending
  induction pending with
  | nil => intro idx pre res hval hpre hnodup; simp [scBulkLoop]
  | cons row rest ih =>
      intro idx pre res hval hpre hnodup
      have hok := hval row (List.mem_cons_self _ _)
      cases hchk : scRowCheck reg row with
      | error e => rw [hchk] at hok; simp [Except.isOk, Except.toBool] at hok
      | ok v =>
          have hkey : scRowKey reg row = some (v.province.name, v.tahun) := by
            rw [scRowKey, hchk]
          have hfreshD1 : scRowFreshD reg u1 t1 row = scFreshRecord u1 t1 v row := by
            rw [scRowFreshD, hchk]
          have hupdD : scRowUpdD reg u1 t1 u t2 row =
              scUpdatedRecord (scRowFreshD reg u1 t1 row) u t2 v row := by
            rw [scRowUpdD, hchk]
          have hnd := hnodup
          rw [List.map_cons, List.nodup_cons] at hnd
          have hprekeys : ∀ rec ∈ pre,
              ¬(rec.provinsi = v.province.name ∧ rec.tahun = v.tahun) := by
            intro rec hrec hcontra
            apply hpre row (List.mem_cons_self _ _) rec hrec
            rw [hkey, hcontra.1, hcontra.2]
          have hprenone := scKey_find_none hprekeys
          have hprenotp : ∀ x ∈ pre,
              ¬(x.provinsi == v.province.name && x.tahun == v.tahun) = true := by
            intro x hx hpx
            exact hprekeys x hx (by simpa [Bool.and_eq_true, beq_iff_eq] using hpx)
          have hphead : ((scRowFreshD reg u1 t1 row).provinsi == v.province.name &&
              (scRowFreshD reg u1 t1 row).tahun == v.tahun) = true := by
            rw [hfreshD1]; simp [scFreshRecord]
          have hfind : (pre ++ (row :: rest).map (scRowFreshD reg u1 t1)).find?
              (fun r => r.provinsi == v.province.name && r.tahun == v.tahun) =
              some (scRowFreshD reg u1 t1 row) := by
            rw [List.map_cons, List.find?_append, hprenone, Option.none_or]
            exact List.find?_cons_of_pos _ hphead
          have hupdate : updateFirst
              (fun r => r.provinsi == v.province.name && r.tahun == v.tahun)
              (fun old => scUpdatedRecord old u t2 v row)
              (pre ++ (row :: rest).map (scRowFreshD reg u1 t1)) =
              pre ++ (scRowUpdD reg u1 t1 u t2 row ::
                rest.map (scRowFreshD reg u1 t1)) := by
            rw [List.map_cons, updateFirst_append_of_none _ hprenotp]
            rw [updateFirst, if_pos hphead, ← hupdD]
          simp only [scBulkLoop, hchk, hfind, if_pos hrole, hupdate]
          have hshift : pre ++ (scRowUpdD reg u1 t1 u t2 row ::
              rest.map (scRowFreshD reg u1 t1)) =
              (pre ++ [scRowUpdD reg u1 t1 u t2 row]) ++
                rest.map (scRowFreshD reg u1 t1) := by
            rw [List.append_assoc, List.singleton_append]
          rw [hshift, ih (idx + 1) (pre ++ [scRowUpdD reg u1 t1 u t2 row])
            { res with
              processedCount := res.processedCount + 1
              updated := res.updated + 1 }
            (fun r hr => hval r (List.mem_cons_of_mem _ hr))
            ?_ hnd.2]
          · rw [List.map_cons, List.append_assoc, List.singleton_append]
            refine congrArg _ ?_
            simp only [SCBulkResult.mk.injEq, List.length_cons]
            exact ⟨trivial, by omega, trivial, trivial, by omega⟩
          · intro r hr rec hrec
            rcases List.mem_append.mp hrec with h2 | h2
            · exact hpre r (List.mem_cons_of_mem _ hr) rec h2
            · have hrec2 : rec = scRowUpdD reg u1 t1 u t2 row := by simpa using h2
              subst hrec2
              intro hcontra
              apply hnd.1
              have heq2 : scRowKey reg row = scRowKey reg r := by
                rw [hkey, ← hcontra, hupdD]; rfl
              rw [heq2]
              exact List.mem_map_of_mem _ hr

/-- The supply-chain loop processes every row exactly once. -/
lemma scBulkLoop_count (reg : List Province) (u : UserCtx) (now : Int) :
    ∀ (rows : List SCRow) (idx : Nat) (store : List SCRecord)
      (res : SCBulkResult),
    (scBulkLoop reg u now rows idx store res).2.processedCount =
      res.processedCount + rows.length := by
  intro rows
  induction rows with
  | nil => intro idx store res; simp [scBulkLoop]
  | cons row rest ih =>
      intro idx store res
      cases hchk : scRowCheck reg row with
      | error msg =>
          simp only [scBulkLoop, hchk]
          rw [ih]; simp only [List.length_cons]; omega
      | ok v =>
          simp only [scBulkLoop, hchk]
          cases hfind : store.find? (fun r =>
              r.provinsi == v.province.name && r.tahun == v.tahun) with
          | some w =>
              cases hrole : scUserRoles.contains u.role with
              | true =>
                  simp only [if_true]
                  rw [ih]; simp only [List.length_cons]; omega
              | false =>
                  simp only [Bool.false_eq_true, if_false]
                  rw [ih]; simp only [List.length_cons]; omega
          | none =>
              cases hval : scCreateValidate row u.role with
              | some msg => rw [ih]; simp only [List.length_cons]; omega
              | none => rw [ih]; simp only [List.length_cons]; omega

/-- Every error entry produced by the supply-chain loop beyond the incoming
tally carries the 1-based position of its failing input row. -/
lemma scBulkLoop_errors_mem (reg : List Province) (u : UserCtx) (now : Int) :
    ∀ (rows : List SCRow) (idx : Nat) (store : List SCRecord)
      (res : SCBulkResult),
    ∀ e ∈ (scBulkLoop reg u now rows idx store res).2.errors,
    e ∈ res.errors ∨
      (idx + 1 ≤ e.index ∧ e.index ≤ idx + rows.length ∧
        rows[e.index - idx - 1]? = some e.data) := by
  intro rows
  induction rows with
  | nil => intro idx store res e he; exact Or.inl he
  | cons row rest ih =>
      intro idx store res e he
      have hstep : ∀ (m : String) (store2 : List SCRecord)
          (res2 : SCBulkResult),
          (res2.errors = res.errors ∨
            res2.errors = res.errors ++ [⟨idx + 1, row, m⟩]) →
          e ∈ (scBulkLoop reg u now rest (idx + 1) store2 res2).2.errors →
          e ∈ res.errors ∨
            (idx + 1 ≤ e.index ∧ e.index ≤ idx + (row :: rest).length ∧
              (row :: rest)[e.index - idx - 1]? = some e.data) := by
        intro m store2 res2 herr2 he2
        rcases ih (idx + 1) store2 res2 e he2 with h | h
        · rcases herr2 with herr2 | herr2
          · rw [herr2] at h
            exact Or.inl h
          · rw [herr2] at h
            rcases List.mem_append.mp h with h2 | h2
            · exact Or.inl h2
            · have heq := List.mem_singleton.mp h2
              rw [heq]
              exact Or.inr ⟨le_refl _, by simp, by simp⟩
        · obtain ⟨ha, hb, hc⟩ := h
          refine Or.inr ⟨by omega, by simp only [List.length_cons]; omega, ?_⟩
          have hidx : e.index - idx - 1 = (e.index - (idx + 1) - 1) + 1 := by
            omega
          rw [hidx]
          simpa using hc
      cases hchk : scRowCheck reg row with
      | error msg =>
          simp only [scBulkLoop, hchk] at he
          exact hstep msg _ _ (Or.inr rfl) he
      | ok v =>
          cases hfind : store.find? (fun r =>
              r.provinsi == v.province.name && r.tahun == v.tahun) with
          | some w =>
              cases hrole : scUserRoles.contains u.role with
              | true =>
                  simp only [scBulkLoop, hchk, hfind, hrole, if_true] at he
                  refine hstep "" _ _ ?_ he
                  exact Or.inl rfl
              | false =>
                  simp only [scBulkLoop, hchk, hfind, hrole,
                    Bool.false_eq_true, if_false] at he
                  exact hstep _ _ _ (Or.inr rfl) he
          | none =>
              cases hval : scCreateValidate row u.role with
              | some msg =>
                  simp only [scBulkLoop, hchk, hfind, hval] at he
                  exact hstep msg _ _ (Or.inr rfl) he
              | none =>
                  simp only [scBulkLoop, hchk, hfind, hval] at he
                  refine hstep "" _ _ ?_ he
                  exact Or.inl rfl

/-- Every expected connection error entry carries the raw failing row and
the message of that row's failed check. -/
lemma connExpectedErrors_mem (reg : List Province) :
    ∀ (rows : List ConnRow), ∀ e ∈ connExpectedErrors reg rows,
    connRowCheck reg e.connection = Except.error e.error := by
  intro rows
  induction rows with
  | nil => intro e he; simp [connExpectedErrors] at he
  | cons row rest ih =>
      intro e he
      cases hchk : connRowCheck reg row with
      | error msg =>
          simp only [connExpectedErrors, hchk] at he
          rcases List.mem_cons.mp he with rfl | h2
          · exact hchk
          · exact ih e h2
      | ok v =>
          simp only [connExpectedErrors, hchk] at he
          exact ih e he

/-- The business view of the record a second identical run writes equals the
business view of the record the first run created (supply chain: the absent
numeric fields fall back to the stored first-run values, and kondisi is
carried over unchanged). -/
lemma scView_upd_eq_fresh (reg : List Province) (u : UserCtx) (t1 t2 : Int)
    (row : SCRow) :
    scBusinessView (scRowUpdD reg u t1 u t2 row) =
      scBusinessView (scRowFreshD reg u t1 row) := by
  cases hchk : scRowCheck reg row <;>
    · simp only [scRowUpdD, scRowFreshD, hchk, scUpdatedRecord, scFreshRecord,
        scBusinessView]
      cases row.mpp <;> cases row.jumlahRantai <;> cases row.produksiBeras <;>
        cases row.konsumsiBeras <;> rfl

/-! ## Claim theorems -/

/-- C10: for a FoodSecurity record saved without an explicit category, the
pre-save hook assigns the category by the pure total thresholding of the
index: at most 37.61 is category 1, then the half-open bands up to 48.27,
57.11, 65.96 and 74.40 give categories 2-5, above 74.40 gives category 6;
the bands cover the whole valid range 0-100, so every such record carries a
category between 1 and 6. -/
theorem claim_C10 (indeks : Rat) (h0 : 0 ≤ indeks) (h100 : indeks ≤ 100) :
    fsPreSaveCategory none indeks = determineFoodSecurityCategory indeks ∧
    (∀ c : FSCategory, c.kategori.getD 0 = 0 →
      fsPreSaveCategory (some c) indeks = determineFoodSecurityCategory indeks) ∧
    (∃ k, (determineFoodSecurityCategory indeks).kategori = some k ∧
      1 ≤ k ∧ k ≤ 6) ∧
    (indeks ≤ mkRat 3761 100 →
      (determineFoodSecurityCategory indeks).kategori = some 1) ∧
    (mkRat 3761 100 < indeks → indeks ≤ mkRat 4827 100 →
      (determineFoodSecurityCategory indeks).kategori = some 2) ∧
    (mkRat 4827 100 < indeks → indeks ≤ mkRat 5711 100 →
      (determineFoodSecurityCategory indeks).kategori = some 3) ∧
    (mkRat 5711 100 < indeks → indeks ≤ mkRat 6596 100 →
      (determineFoodSecurityCategory indeks).kategori = some 4) ∧
    (mkRat 6596 100 < indeks → indeks ≤ mkRat 7440 100 →
      (determineFoodSecurityCategory indeks).kategori = some 5) ∧
    (mkRat 7440 100 < indeks →
      (determineFoodSecurityCategory indeks).kategori = some 6) := by
  refine ⟨rfl, ?_, detCat_total indeks, ?_, ?_, ?_, ?_, ?_, ?_⟩
  · intro c hc
    have hc2 : (c.kategori.getD 0 == 0) = true := by simp [hc]
    simp [fsPreSaveCategory, hc2]
  · intro h; rw [detCat_band1 h]
  · intro h1 h2; rw [detCat_band2 h1 h2]
  · intro h1 h2; rw [detCat_band3 h1 h2]
  · intro h1 h2; rw [detCat_band4 h1 h2]
  · intro h1 h2; rw [detCat_band5 h1 h2]
  · intro h1; rw [detCat_band6 h1]

/-- Witness for C10 at the concrete index 50 (category band 3). -/
theorem claim_C10_witness :
    (0 : Rat) ≤ mkRat 50 1 ∧ (mkRat 50 1 : Rat) ≤ 100 ∧
    fsPreSaveCategory none (mkRat 50 1) =
      determineFoodSecurityCategory (mkRat 50 1) ∧
    (∃ k, (determineFoodSecurityCategory (mkRat 50 1)).kategori = some k ∧
      1 ≤ k ∧ k ≤ 6) :=
  ⟨by decide, by decide,
   (claim_C10 (mkRat 50 1) (by decide) (by decide)).1,
   (claim_C10 (mkRat 50 1) (by decide) (by decide)).2.2.1⟩

/-- C9: the save path of a SupplyChain record persists kondisi as Surplus
exactly when production strictly exceeds consumption and as Defisit
otherwise; the balanced case is persisted as Defisit; the Kondisi enum has
no third value; the map read paths classify the same pair three ways, with
the balanced case mapped to balanced. -/
theorem claim_C9 (produksi konsumsi : Rat) :
    (scPreSaveKondisi produksi konsumsi = Kondisi.Surplus ↔ konsumsi < produksi) ∧
    (scPreSaveKondisi produksi konsumsi = Kondisi.Defisit ↔ produksi ≤ konsumsi) ∧
    scPreSaveKondisi konsumsi konsumsi = Kondisi.Defisit ∧
    combinedBalanceType konsumsi konsumsi = BalanceType.balanced ∧
    (∀ c : Kondisi, c = Kondisi.Surplus ∨ c = Kondisi.Defisit) ∧
    (scPreSaveKondisi produksi konsumsi = Kondisi.Surplus ↔
      combinedBalanceType produksi konsumsi = BalanceType.surplus) ∧
    (∀ (u : UserCtx) (now : Int) (v : SCValid) (row : SCRow),
      (scFreshRecord u now v row).kondisi =
        scPreSaveKondisi (row.produksiBeras.getD 0) (row.konsumsiBeras.getD 0)) := by
  by_cases h : produksi ≤ konsumsi
  · have hnl : ¬konsumsi < produksi := not_lt.mpr h
    have hng : ¬produksi > konsumsi := not_lt.mpr h
    refine ⟨?_, ?_, ?_, ?_, fun c => by cases c <;> simp, ?_, fun u now v row => rfl⟩
    · simp [scPreSaveKondisi, if_pos h, hnl]
    · simp [scPreSaveKondisi, if_pos h, h]
    · simp [scPreSaveKondisi]
    · simp [combinedBalanceType, lt_irrefl]
    · simp only [scPreSaveKondisi, if_pos h, combinedBalanceType, if_neg hng]
      split <;> simp
  · have hlt : konsumsi < produksi := not_le.mp h
    refine ⟨?_, ?_, ?_, ?_, fun c => by cases c <;> simp, ?_, fun u now v row => rfl⟩
    · simp [scPreSaveKondisi, if_neg h, hlt]
    · simp [scPreSaveKondisi, if_neg h, h]
    · simp [scPreSaveKondisi]
    · simp [combinedBalanceType, lt_irrefl]
    · simp [scPreSaveKondisi, if_neg h, combinedBalanceType, if_pos hlt]

/-- C1 counterexample: the SupplyChain natural-key index is declared without
the unique option, so the storage layer accepts a duplicate (provinsi,
tahun) insert even when the key is already present; the claim that every
fact dataset enforces the natural key by a unique storage index is false for
the SupplyChain collection. -/
theorem claim_C1_counterexample :
    hasUniqueNatKeyIndex supplyChainSchemaIndexes = false ∧
    natKeyInsert supplyChainSchemaIndexes [("Aceh", 2020)] ("Aceh", 2020) =
      Except.ok [("Aceh", 2020), ("Aceh", 2020)] :=
  ⟨rfl, rfl⟩

/-- C1 amended: the FoodSecurity collection does enforce the (provinsi,
tahun) natural key by a unique storage index, and there the storage layer
alone rejects a duplicate insert; the SupplyChain collection declares its
natural-key index without the unique option, so its storage layer never
rejects a duplicate and only the application-level findOne check guards
against duplicate creation. -/
theorem claim_C1_amended :
    hasUniqueNatKeyIndex foodSecuritySchemaIndexes = true ∧
    hasUniqueNatKeyIndex supplyChainSchemaIndexes = false ∧
    (∀ (store : List (String × Int)) (k : String × Int),
      store.contains k = true →
      natKeyInsert foodSecuritySchemaIndexes store k =
        Except.error "E11000 duplicate key error") ∧
    (∀ (store : List (String × Int)) (k : String × Int),
      natKeyInsert supplyChainSchemaIndexes store k = Except.ok (store ++ [k])) := by
  refine ⟨rfl, rfl, ?_, ?_⟩
  · intro store k h
    unfold natKeyInsert
    rw [show hasUniqueNatKeyIndex foodSecuritySchemaIndexes = true from rfl, h]
    rfl
  · intro store k
    unfold natKeyInsert
    rw [show hasUniqueNatKeyIndex supplyChainSchemaIndexes = false from rfl]
    simp

/-- Witness for C1 amended: the unique FoodSecurity index rejects a concrete
duplicate insert. -/
theorem claim_C1_witness :
    natKeyInsert foodSecuritySchemaIndexes [("Aceh", 2020)] ("Aceh", 2020) =
      Except.error "E11000 duplicate key error" :=
  claim_C1_amended.2.2.1 [("Aceh", 2020)] ("Aceh", 2020) (by decide)

/-- C5 counterexample: the provinceReference key set by the create and bulk
food-security writes is not a declared schema path, so strict mode drops it
and the stored fact row does not carry the province id; the claim that every
fact-record write persists both the id and the denormalized name is false. -/
theorem claim_C5_counterexample :
    "provinceReference" ∈
      createFoodSecuritySetsPaths
        ["provinceId", "tahun", "dependent_variable", "independent_variables"] ∧
    "provinceReference" ∉
      mongooseStrictFilter foodSecuritySchemaPaths
        (createFoodSecuritySetsPaths
          ["provinceId", "tahun", "dependent_variable", "independent_variables"]) ∧
    "provinceReference" ∉
      mongooseStrictFilter foodSecuritySchemaPaths bulkFoodSecuritySetsPaths := by
  decide

/-- C5 amended: the single-create food-security path and the supply-chain
paths resolve the province and persist its denormalized name (the provinsi
schema path); every such write also sets a provinceReference id key, but no
fact schema declares that path, so strict mode drops it and the id never
reaches the stored row.  The bulk food-security path persists nothing at
all: its entry omits the required dependent_variable.indeks_ketahanan_pangan
path (and, for a row supplying no independent variables, eight of the nine
required independent_variables paths), so its loop returns the store
unchanged. -/
theorem claim_C5_amended :
    (∀ bodyPaths : List String,
      "provinsi" ∈ mongooseStrictFilter foodSecuritySchemaPaths
        (createFoodSecuritySetsPaths bodyPaths) ∧
      "provinceReference" ∈ createFoodSecuritySetsPaths bodyPaths ∧
      "provinceReference" ∉ mongooseStrictFilter foodSecuritySchemaPaths
        (createFoodSecuritySetsPaths bodyPaths)) ∧
    "provinceReference" ∉ foodSecuritySchemaPaths ∧
    "provinceReference" ∉ supplyChainSchemaPaths ∧
    "provinsi" ∈ mongooseStrictFilter foodSecuritySchemaPaths
      bulkFoodSecuritySetsPaths ∧
    (∀ (u : UserCtx) (now : Int) (v : SCValid) (row : SCRow),
      (scFreshRecord u now v row).provinsi = v.province.name) ∧
    "dependent_variable.indeks_ketahanan_pangan" ∈
      foodSecurityRequiredNestedPaths ∧
    "dependent_variable.indeks_ketahanan_pangan" ∉
      bulkFoodSecurityEntryNestedPaths ∧
    (∀ row : FSRow, "dependent_variable.indeks_ketahanan_pangan" ∈
      fsCreateMissingRequired row) ∧
    (∀ (pid : Option Nat) (tahun : Option Int) (pou : Option Rat),
      (fsCreateMissingRequired ⟨pid, tahun, pou, []⟩).length = 9) ∧
    (∀ (reg : List Province) (u : UserCtx) (now : Int) (rows : List FSRow)
      (idx : Nat) (store : List FSRecord) (res : FSBulkResult),
      (fsBulkLoop reg u now rows idx store res).1 = store) := by
  refine ⟨?_, by decide, by decide, by decide,
    fun u now v row => rfl, by decide, by decide,
    fun row => by rw [fsCreateMissingRequired]; exact List.mem_cons_self _ _,
    fun pid tahun pou => rfl,
    fun reg u now rows idx store res =>
      (fsBulkLoop_spec reg u now rows idx store res).1⟩
  intro bodyPaths
  have hmem : "provinsi" ∈ createFoodSecuritySetsPaths bodyPaths := by
    rw [createFoodSecuritySetsPaths, List.mem_dedup]
    exact List.mem_append_right _ (by decide)
  have href : "provinceReference" ∈ createFoodSecuritySetsPaths bodyPaths := by
    rw [createFoodSecuritySetsPaths, List.mem_dedup]
    exact List.mem_append_right _ (by decide)
  refine ⟨List.mem_filter.mpr ⟨hmem, by decide⟩, href, ?_⟩
  intro hc
  exact absurd (List.mem_filter.mp hc).2 (by decide)

/-- C8 counterexample: the number of storage queries issued by the
connection-statistics endpoint is not a function of the edge set alone: on
the same (empty) edge set it grows by two per registered province, because
the implementation issues two count queries per province instead of one
aggregation over the edges. -/
theorem claim_C8_counterexample :
    (getConnectionStatistics [] []).2 ≠
      (getConnectionStatistics [⟨1, "Aceh", "11", true⟩] []).2 := by
  decide

/-- C8 amended: the connection-statistics query does compute the top-10
provinces ranked (descending, stably) by total degree over the edge set, with
correct per-province out-degree and in-degree tallies, but it does so with
two count queries per registered province (3 + one per distinct year + 2 per
province storage queries in all), not with a single aggregation over the
edge set. -/
theorem claim_C8_amended (provinces : List Province) (conns : List ConnRecord) :
    (getConnectionStatistics provinces conns).2 =
      3 + ((conns.map (fun c => c.year)).dedup).length + 2 * provinces.length ∧
    (getConnectionStatistics provinces conns).1.totalConnections = conns.length ∧
    (getConnectionStatistics provinces conns).1.provinceStats.length =
      min 10 provinces.length ∧
    List.Pairwise (fun a b => b.totalConnections ≤ a.totalConnections)
      (getConnectionStatistics provinces conns).1.provinceStats ∧
    (∀ e ∈ (getConnectionStatistics provinces conns).1.provinceStats,
      e.connectionsAsSource = outDegree conns e.provinceId ∧
      e.connectionsAsTarget = inDegree conns e.provinceId ∧
      e.totalConnections =
        outDegree conns e.provinceId + inDegree conns e.provinceId) := by
  have htrans : ∀ a b c : StatEntry,
      decide (b.totalConnections ≤ a.totalConnections) = true →
      decide (c.totalConnections ≤ b.totalConnections) = true →
      decide (c.totalConnections ≤ a.totalConnections) = true := by
    intro a b c hab hbc
    simp only [decide_eq_true_eq] at *
    omega
  have htotal : ∀ a b : StatEntry,
      (decide (b.totalConnections ≤ a.totalConnections) ||
        decide (a.totalConnections ≤ b.totalConnections)) = true := by
    intro a b
    rcases Nat.le_total b.totalConnections a.totalConnections with h | h <;>
      simp [h]
  refine ⟨by simp only [getConnectionStatistics]; omega, rfl, ?_, ?_, ?_⟩
  · simp only [getConnectionStatistics]
    rw [List.length_take, (List.mergeSort_perm _ _).length_eq, List.length_map]
  · have hs := List.sorted_mergeSort htrans htotal
      (provinces.map (fun p =>
        ({ provinceId := p.id
           name := p.name
           code := p.code
           connectionsAsSource := outDegree conns p.id
           connectionsAsTarget := inDegree conns p.id
           totalConnections := outDegree conns p.id + inDegree conns p.id } :
          StatEntry)))
    have hs2 := hs.imp (fun h => of_decide_eq_true h)
    exact List.Pairwise.sublist (List.take_sublist 10 _) hs2
  · intro e he
    simp only [getConnectionStatistics] at he
    have he2 := (List.take_sublist 10 _).subset he
    have he3 := List.mem_mergeSort.mp he2
    obtain ⟨p, hp, rfl⟩ := List.mem_map.mp he3
    exact ⟨rfl, rfl, rfl⟩

/-- C4: for every bulk import batch (food-security and connections paths),
every row is processed, every row-level failure — a structural validation
failure, a reference to a nonexistent province, or the ValidationError
thrown at the food-security persistence step — is tallied as failed with an
error entry carrying the thrown message, the tallies sum to the batch
length, and the function returns a result rather than propagating any
row-level error past the batch boundary. -/
theorem claim_C4 (reg : List Province) (u : UserCtx) (now : Int)
    (fsStore : List FSRecord) (fsRows : List FSRow) (hfs : fsRows ≠ [])
    (connStore : List ConnRecord) (connRows : List ConnRow)
    (hconn : connRows ≠ []) :
    (∃ resp store1,
      bulkImportFoodSecurity reg u now fsStore fsRows = some (resp, store1) ∧
      resp.totalProcessed = fsRows.length ∧
      resp.created + resp.updated + resp.failed = fsRows.length ∧
      resp.errors = fsExpectedErrors reg fsRows 0 ∧
      resp.failed = resp.errors.length ∧
      (∀ e ∈ resp.errors,
        fsRowCheck reg e.data = Except.error e.error ∨
          ((fsRowCheck reg e.data).isOk = true ∧
            e.error = fsCreateValidationMsg e.data))) ∧
    (∃ resp store1,
      bulkImportConnections reg now connStore connRows = some (resp, store1) ∧
      resp.result.created + resp.result.updated + resp.result.failed =
        connRows.length ∧
      resp.result.errors = connExpectedErrors reg connRows ∧
      resp.result.failed = (connExpectedErrors reg connRows).length) := by
  constructor
  · refine ⟨_, _, bulkImportFoodSecurity_run reg u now fsStore fsRows hfs,
      rfl, by simp, rfl, ?_, ?_⟩
    · exact (fsExpectedErrors_length reg fsRows 0).symm
    · intro e he
      exact (fsExpectedErrors_mem reg fsRows 0 e he).2.2.2
  · have he : connRows.isEmpty = false := by
      cases connRows with
      | nil => exact absurd rfl hconn
      | cons a l => rfl
    simp only [bulkImportConnections, he, Bool.false_eq_true, if_false]
    refine ⟨_, _, rfl, ?_, ?_, ?_⟩ <;>
      obtain ⟨h1, h2, h3⟩ :=
        connBulkLoop_spec reg now connRows connStore ⟨0, 0, 0, []⟩
    · simp [h1]
    · simp [h2]
    · simp [h3]

/-- Witness for C4: a two-row food-security batch in which the second row
references a nonexistent province, and a one-row self-connection batch; both
complete with full accounting. -/
theorem claim_C4_witness :
    ∃ resp store1,
      bulkImportFoodSecurity [⟨1, "Aceh", "11", true⟩] ⟨7, "Budi", "pemerintah"⟩
        0 []
        [⟨some 1, some 2020, some (mkRat 50 1), []⟩,
         ⟨some 2, some 2020, some (mkRat 50 1), []⟩] = some (resp, store1) ∧
      resp.totalProcessed = 2 ∧
      resp.created + resp.updated + resp.failed = 2 := by
  obtain ⟨⟨resp, store1, heq, hp, hsum, _⟩, _⟩ :=
    claim_C4 [⟨1, "Aceh", "11", true⟩] ⟨7, "Budi", "pemerintah"⟩ 0 []
      [⟨some 1, some 2020, some (mkRat 50 1), []⟩,
       ⟨some 2, some 2020, some (mkRat 50 1), []⟩] (by decide)
      [] [⟨some 1, some 1, some 2020⟩] (by decide)
  exact ⟨resp, store1, heq, hp, hsum⟩

/-- C6: a self-connection is rejected on every path and never persisted: the
single-create endpoint answers 400 and leaves the store unchanged for every
year value; the bulk row check fails a source-equals-target row for every
year value; the schema-level pre-validate hook rejects such a document, so
even a direct create is refused; and a bulk run over a store without
self-loops never produces one. -/
theorem claim_C6 (reg : List Province) (now : Int) (store : List ConnRecord)
    (rows : List ConnRow) (s : Nat) (y : Option Int)
    (hstore : noSelfLoop store) :
    (createConnection reg now store (some s) (some s) y).1.status = 400 ∧
    (createConnection reg now store (some s) (some s) y).2 = store ∧
    (∃ msg, connRowCheck reg ⟨some s, some s, y⟩ = Except.error msg) ∧
    connSchemaValidatesOk s s = false ∧
    (∀ yy : Int, connCreate store s s yy now = Except.error
      "ProvinceConnection validation failed: targetProvinceId: Source and target provinces cannot be the same") ∧
    noSelfLoop (connBulkLoop reg now rows store ⟨0, 0, 0, []⟩).1 ∧
    (∀ out, bulkImportConnections reg now store rows = some out →
      noSelfLoop out.2) := by
  have hval : connSchemaValidatesOk s s = false := by
    simp [connSchemaValidatesOk]
  have hcreate : ∀ yy : Int, connCreate store s s yy now = Except.error
      "ProvinceConnection validation failed: targetProvinceId: Source and target provinces cannot be the same" := by
    intro yy
    rw [connCreate, if_neg]
    rw [hval]
    simp
  have hss : (s == s) = true := beq_self_eq_true s
  have hsingle : (createConnection reg now store (some s) (some s) y).1.status = 400 ∧
      (createConnection reg now store (some s) (some s) y).2 = store := by
    cases y with
    | none => exact ⟨rfl, rfl⟩
    | some y0 =>
        by_cases hy : (y0 == 0) = true
        · have hred : createConnection reg now store (some s) (some s) (some y0) =
              (⟨400, false, "Year is required"⟩, store) := by
            simp only [createConnection]
            rw [if_pos hy]
          rw [hred]
          exact ⟨rfl, rfl⟩
        · have hred : createConnection reg now store (some s) (some s) (some y0) =
              (⟨400, false, "Source and target provinces cannot be the same"⟩,
               store) := by
            simp only [createConnection]
            rw [if_neg hy, if_pos hss]
          rw [hred]
          exact ⟨rfl, rfl⟩
  have hrow : ∃ msg, connRowCheck reg ⟨some s, some s, y⟩ =
      Except.error msg := by
    cases y with
    | none => exact ⟨"Missing required fields", rfl⟩
    | some y0 =>
        by_cases hy : (y0 == 0) = true
        · refine ⟨"Missing required fields", ?_⟩
          simp only [connRowCheck]
          rw [if_pos hy]
        · refine ⟨"Source and target provinces cannot be the same", ?_⟩
          simp only [connRowCheck]
          rw [if_neg hy, if_pos hss]
  refine ⟨hsingle.1, hsingle.2, hrow, hval, hcreate,
    connBulkLoop_noSelfLoop reg now rows store _ hstore, ?_⟩
  intro out hout
  cases hrows : rows.isEmpty with
  | true => rw [bulkImportConnections, if_pos hrows] at hout; cases hout
  | false =>
      rw [bulkImportConnections, if_neg (by rw [hrows]; simp)] at hout
      obtain rfl := (Option.some.inj hout).symm
      exact connBulkLoop_noSelfLoop reg now rows store _ hstore

/-- Witness for C6 at a concrete store and batch. -/
theorem claim_C6_witness :
    noSelfLoop [] ∧
    (createConnection [⟨1, "Aceh", "11", true⟩] 0 [] (some 1) (some 1)
      (some 2020)).1.status = 400 ∧
    noSelfLoop (connBulkLoop [⟨1, "Aceh", "11", true⟩] 0
      [⟨some 1, some 1, some 2020⟩] [] ⟨0, 0, 0, []⟩).1 := by
  have h := claim_C6 [⟨1, "Aceh", "11", true⟩] 0 []
    [⟨some 1, some 1, some 2020⟩] 1 (some 2020) (fun r hr => absurd hr (by simp))
  exact ⟨fun r hr => absurd hr (by simp), h.1, h.2.2.2.2.2.1⟩

/-- C7 counterexample: the connections bulk import does not return the
claimed result shape: on the batch of the claim's example the error entry
carries the raw input row and the message of the source check, it has no
1-based index field and the result has no totalProcessed field, and the
message is not the claimed self-connection text. -/
theorem claim_C7_counterexample :
    bulkImportConnections [⟨1, "A", "01", true⟩, ⟨2, "B", "02", true⟩] 0 []
      [⟨some 1, some 2, some 2020⟩, ⟨some 1, some 1, some 2020⟩] =
    some (⟨200, true, "Bulk import completed",
           ⟨1, 0, 1, [⟨⟨some 1, some 1, some 2020⟩,
             "Source and target provinces cannot be the same"⟩]⟩⟩,
          [⟨1, 2, 2020, 0, some 0⟩]) ∧
    "Source and target provinces cannot be the same" ≠ "self-connection" :=
  ⟨rfl, by decide⟩

/-- C7 amended: the food-security and supply-chain bulk responses carry
totalProcessed, successful and per-error 1-based indexes pointing at the
failing input row; the connections bulk response carries only the tallies
and error entries with the raw row and message (no index, no
totalProcessed). -/
theorem claim_C7_amended (reg : List Province) (u : UserCtx) (now : Int)
    (fsStore : List FSRecord) (fsRows : List FSRow) (hfs : fsRows ≠ [])
    (scStore : List SCRecord) (scRows : List SCRow) (hsc : scRows ≠ [])
    (connStore : List ConnRecord) (connRows : List ConnRow)
    (hconn : connRows ≠ []) :
    (∃ resp store1,
      bulkImportFoodSecurity reg u now fsStore fsRows = some (resp, store1) ∧
      resp.totalProcessed = fsRows.length ∧
      resp.successful = resp.created + resp.updated ∧
      (∀ e ∈ resp.errors, 1 ≤ e.index ∧ e.index ≤ fsRows.length ∧
        fsRows[e.index - 1]? = some e.data)) ∧
    (∃ resp store1,
      bulkImportSupplyChain reg u now scStore scRows = some (resp, store1) ∧
      resp.totalProcessed = scRows.length ∧
      resp.successful = resp.created + resp.updated ∧
      (∀ e ∈ resp.errors, 1 ≤ e.index ∧ e.index ≤ scRows.length ∧
        scRows[e.index - 1]? = some e.data)) ∧
    (∃ resp store1,
      bulkImportConnections reg now connStore connRows = some (resp, store1) ∧
      resp.status = 200 ∧
      resp.result.errors = connExpectedErrors reg connRows ∧
      (∀ e ∈ resp.result.errors,
        connRowCheck reg e.connection = Except.error e.error)) := by
  refine ⟨?_, ?_, ?_⟩
  · refine ⟨_, _, bulkImportFoodSecurity_run reg u now fsStore fsRows hfs,
      rfl, rfl, ?_⟩
    intro e he
    obtain ⟨ha, hb, hc, _⟩ := fsExpectedErrors_mem reg fsRows 0 e he
    exact ⟨ha, by simpa using hb, by simpa using hc⟩
  · have he : scRows.isEmpty = false := by
      cases scRows with
      | nil => exact absurd rfl hsc
      | cons a l => rfl
    simp only [bulkImportSupplyChain, he, Bool.false_eq_true, if_false]
    refine ⟨_, _, rfl, ?_, rfl, ?_⟩
    · have h := scBulkLoop_count reg u now scRows 0 scStore ⟨0, 0, 0, [], 0⟩
      simpa using h
    · intro e he2
      rcases scBulkLoop_errors_mem reg u now scRows 0 scStore
        ⟨0, 0, 0, [], 0⟩ e he2 with h | h
      · simp at h
      · obtain ⟨ha, hb, hc⟩ := h
        exact ⟨ha, by simpa using hb, by simpa using hc⟩
  · have he : connRows.isEmpty = false := by
      cases connRows with
      | nil => exact absurd rfl hconn
      | cons a l => rfl
    simp only [bulkImportConnections, he, Bool.false_eq_true, if_false]
    obtain ⟨h1, h2, h3⟩ :=
      connBulkLoop_spec reg now connRows connStore ⟨0, 0, 0, []⟩
    refine ⟨_, _, rfl, rfl, by simp [h2], ?_⟩
    intro e he2
    simp only [h2, List.nil_append] at he2
    exact connExpectedErrors_mem reg connRows e he2

/-- Witness for C7 amended: a concrete mixed batch on each path. -/
theorem claim_C7_witness :
    ∃ resp store1,
      bulkImportFoodSecurity [⟨1, "Aceh", "11", true⟩] ⟨7, "Budi", "pemerintah"⟩
        0 []
        [⟨some 1, some 2020, some (mkRat 50 1), []⟩,
         ⟨some 9, some 2020, some (mkRat 50 1), []⟩] = some (resp, store1) ∧
      resp.totalProcessed = 2 ∧
      (∀ e ∈ resp.errors, 1 ≤ e.index ∧ e.index ≤ 2) := by
  obtain ⟨⟨resp, store1, heq, hp, _, herr⟩, _, _⟩ :=
    claim_C7_amended [⟨1, "Aceh", "11", true⟩] ⟨7, "Budi", "pemerintah"⟩ 0 []
      [⟨some 1, some 2020, some (mkRat 50 1), []⟩,
       ⟨some 9, some 2020, some (mkRat 50 1), []⟩] (by decide)
      [] [⟨some 1, some 2020, some (mkRat 1 1), some (mkRat 2 1),
        some (mkRat 3 1), some (mkRat 4 1)⟩] (by decide)
      [] [⟨some 1, some 1, some 2020⟩] (by decide)
  exact ⟨resp, store1, heq, hp,
    fun e he => ⟨(herr e he).1, (herr e he).2.1⟩⟩

/-- C2 counterexample: on the food-security path a valid one-row batch with
a fresh natural key is not created at all — the first run already tallies
(created, updated, failed) = (0, 0, 1), because the built document fails
schema validation — and on the supply-chain path, where the counts do hold,
the store after the second run differs from the store after the first run
(the second run stamps updatedBy on the stored record), so neither half of
the claim survives. -/
theorem claim_C2_counterexample :
    ((bulkImportFoodSecurity [⟨1, "Aceh", "11", true⟩]
        ⟨7, "Budi", "pemerintah"⟩ 0 []
        [⟨some 1, some 2020, some (mkRat 50 1), []⟩]).map (fun out =>
      (out.1.created, out.1.updated, out.1.failed))) = some (0, 0, 1) ∧
    ((bulkImportSupplyChain [⟨1, "Aceh", "11", true⟩]
        ⟨7, "Budi", "pemerintah"⟩ 0 []
        [⟨some 1, some 2020, some (mkRat 1 1), some (mkRat 2 1),
          some (mkRat 3 1), some (mkRat 4 1)⟩]).bind (fun out1 =>
      (bulkImportSupplyChain [⟨1, "Aceh", "11", true⟩]
        ⟨7, "Budi", "pemerintah"⟩ 0 out1.2
        [⟨some 1, some 2020, some (mkRat 1 1), some (mkRat 2 1),
          some (mkRat 3 1), some (mkRat 4 1)⟩]).map (fun out2 =>
      decide (out2.2 = out1.2)))) = some false := by
  constructor <;> rfl

/-- C2 amended: on the supply-chain path, submitting a batch of valid full
rows with fresh, pairwise-distinct natural keys twice yields
(created = N, updated = 0, failed = 0) then (created = 0, updated = N,
failed = 0), and the state after the second run is identical to the state
after the first run up to the audit stamps (createdAt, updatedAt,
updatedBy): the business content of every stored record is unchanged.  On
the food-security path the bulk import persists nothing: both runs yield
(created = 0, updated = 0, failed = N) and return the store unchanged, so
the final state is trivially identical but never through the claimed
counts. -/
theorem claim_C2_amended (reg : List Province) (u : UserCtx) (t1 t2 : Int)
    (s0 : List FSRecord) (rows : List FSRow) (hne : rows ≠ [])
    (sc0 : List SCRecord) (scRows : List SCRow) (hne2 : scRows ≠ [])
    (hrole : scUserRoles.contains u.role = true)
    (hval2 : ∀ r ∈ scRows, (scRowCheck reg r).isOk = true)
    (hfull2 : ∀ r ∈ scRows, r.mpp.isSome = true ∧
      r.jumlahRantai.isSome = true ∧ r.produksiBeras.isSome = true ∧
      r.konsumsiBeras.isSome = true)
    (hfresh2 : ∀ r ∈ scRows, ∀ rec ∈ sc0,
      some (rec.provinsi, rec.tahun) ≠ scRowKey reg r)
    (hnodup2 : (scRows.map (scRowKey reg)).Nodup) :
    (∃ resp1 store1 resp2 store2,
      bulkImportFoodSecurity reg u t1 s0 rows = some (resp1, store1) ∧
      bulkImportFoodSecurity reg u t2 store1 rows = some (resp2, store2) ∧
      resp1.created = 0 ∧ resp1.updated = 0 ∧ resp1.failed = rows.length ∧
      resp2.created = 0 ∧ resp2.updated = 0 ∧ resp2.failed = rows.length ∧
      store1 = s0 ∧ store2 = s0) ∧
    (∃ resp1 store1 resp2 store2,
      bulkImportSupplyChain reg u t1 sc0 scRows = some (resp1, store1) ∧
      bulkImportSupplyChain reg u t2 store1 scRows = some (resp2, store2) ∧
      resp1.created = scRows.length ∧ resp1.updated = 0 ∧ resp1.failed = 0 ∧
      resp2.created = 0 ∧ resp2.updated = scRows.length ∧ resp2.failed = 0 ∧
      store2.map scBusinessView = store1.map scBusinessView) := by
  constructor
  · exact ⟨_, _, _, _, bulkImportFoodSecurity_run reg u t1 s0 rows hne,
      bulkImportFoodSecurity_run reg u t2 s0 rows hne,
      rfl, rfl, rfl, rfl, rfl, rfl, rfl, rfl⟩
  · have he : scRows.isEmpty = false := by
      cases scRows with
      | nil => exact absurd rfl hne2
      | cons a l => rfl
    have hrun1 := scBulkLoop_create_run reg u t1 hrole scRows 0 sc0
      ⟨0, 0, 0, [], 0⟩ hval2 hfull2 hfresh2 hnodup2
    have hrun2 := scBulkLoop_update_run reg u t2 u t1 hrole scRows 0 sc0
      ⟨0, 0, 0, [], 0⟩ hval2 hfresh2 hnodup2
    refine ⟨⟨200, true, scRows.length, scRows.length, scRows.length, 0, 0, []⟩,
      sc0 ++ scRows.map (scRowFreshD reg u t1),
      ⟨200, true, scRows.length, scRows.length, 0, scRows.length, 0, []⟩,
      sc0 ++ scRows.map (scRowUpdD reg u t1 u t2),
      ?_, ?_, rfl, rfl, rfl, rfl, rfl, rfl, ?_⟩
    · simp only [bulkImportSupplyChain, he, Bool.false_eq_true, if_false,
        hrun1]
      simp
    · simp only [bulkImportSupplyChain, he, Bool.false_eq_true, if_false,
        hrun2]
      simp
    · rw [List.map_append, List.map_append, List.map_map, List.map_map]
      refine congrArg _ ?_
      exact List.map_congr_left (fun r hr =>
        scView_upd_eq_fresh reg u t1 t2 r)

/-- Witness for C2 amended at a concrete one-row batch on each path. -/
theorem claim_C2_witness :
    ∃ resp1 store1 resp2 store2,
      bulkImportFoodSecurity [⟨1, "Aceh", "11", true⟩]
        ⟨7, "Budi", "pemerintah"⟩ 0 []
        [⟨some 1, some 2020, some (mkRat 50 1), []⟩] = some (resp1, store1) ∧
      bulkImportFoodSecurity [⟨1, "Aceh", "11", true⟩]
        ⟨7, "Budi", "pemerintah"⟩ 5 store1
        [⟨some 1, some 2020, some (mkRat 50 1), []⟩] = some (resp2, store2) ∧
      resp1.failed = 1 ∧ store2 = [] := by
  obtain ⟨⟨resp1, store1, resp2, store2, ha, hb, _, _, hf1, _, _, _, _, hs2⟩, _⟩ :=
    claim_C2_amended [⟨1, "Aceh", "11", true⟩] ⟨7, "Budi", "pemerintah"⟩ 0 5
      [] [⟨some 1, some 2020, some (mkRat 50 1), []⟩] (by decide)
      [] [⟨some 1, some 2020, some (mkRat 1 1), some (mkRat 2 1),
        some (mkRat 3 1), some (mkRat 4 1)⟩] (by decide) (by decide)
      (by decide) (by decide) (by decide) (by decide)
  exact ⟨resp1, store1, resp2, store2, ha, hb, hf1, hs2⟩

/-- C3 counterexample: the food-security map path answers a year with zero
matching fact rows with a bare 404 carrying no availableYears key at all,
even though another year (2024) holds data; the claim that every fact
dataset's map path returns the non-empty list of years with data is false. -/
theorem claim_C3_counterexample :
    getFoodSecurityMapData
      ⟨[⟨1, "Aceh", "11", true⟩], [⟨"Aceh", 2024, mkRat 50 1, some 3⟩], []⟩
      2025 none =
      FSMapResult.fail ⟨404, "No food security data found for year 2025",
        2025, none, none, none⟩ ∧
    (⟨"Aceh", 2024, mkRat 50 1, some 3⟩ : FSDoc).tahun ≠ 2025 :=
  ⟨rfl, by decide⟩

/-- C3 amended: only the supply-chain map path carries recovery metadata:
for a valid year with zero matching supply-chain rows it returns 404 with
the distinct years that do hold data (non-empty whenever the collection is
non-empty) plus record and province counts, while the food-security map
path returns a bare 404 with no availableYears for a year with zero
matching rows. -/
theorem claim_C3_amended (st : MapState) (year : Int)
    (hy1 : 2000 ≤ year) (hy2 : year ≤ 2100) (condition : Option String)
    (hempty : st.sc.filter (fun r =>
      r.tahun == year && scConditionHolds condition r) = [])
    (hother : st.sc ≠ []) (category : Option Nat)
    (hfsempty : st.fs.filter (fun d =>
      d.tahun == year &&
      (match category with
       | none => true
       | some c => d.kategori == some c)) = []) :
    (∃ ys, getSupplyChainMapData st year condition =
      SCMapResult.fail ⟨404,
        "No supply chain data found for year " ++ toString year, year,
        some ys, some st.sc.length,
        some (st.provinces.filter (fun p => p.hasGeoData)).length⟩ ∧
      ys ≠ [] ∧
      ys = jsDefaultSortInts ((st.sc.map (fun r => r.tahun)).dedup)) ∧
    getFoodSecurityMapData st year category =
      FSMapResult.fail ⟨404,
        "No food security data found for year " ++ toString year,
        year, none, none, none⟩ := by
  have hguard : ¬((decide (year < 2000) || decide (2100 < year)) = true) := by
    simp only [Bool.or_eq_true, decide_eq_true_eq, not_or]
    omega
  constructor
  · refine ⟨jsDefaultSortInts ((st.sc.map (fun r => r.tahun)).dedup),
      ?_, ?_, rfl⟩
    · simp only [getSupplyChainMapData]
      rw [if_neg hguard, hempty]
      rfl
    · have hdne : (st.sc.map (fun r => r.tahun)).dedup ≠ [] := by
        intro h
        rw [List.dedup_eq_nil] at h
        exact hother (by simpa using h)
      intro h
      have hl := congrArg List.length h
      rw [jsDefaultSortInts, (List.mergeSort_perm _ _).length_eq] at hl
      simp only [List.length_nil] at hl
      exact hdne (List.length_eq_zero.mp hl)
  · simp only [getFoodSecurityMapData]
    rw [if_neg hguard, hfsempty]
    rfl

/-- Witness for C3 amended: a concrete state whose only supply-chain and
food-security rows are for 2024, queried for 2025. -/
theorem claim_C3_witness :
    ∃ ys, getSupplyChainMapData
      ⟨[⟨1, "Aceh", "11", true⟩], [⟨"Aceh", 2024, mkRat 50 1, some 3⟩],
       [⟨"Aceh", 2024, mkRat 1 1, mkRat 2 1, mkRat 3 1, mkRat 4 1,
         Kondisi.Defisit, "Budi", "pemerintah", 0, some 0, none⟩]⟩
      2025 none =
      SCMapResult.fail ⟨404, "No supply chain data found for year 2025",
        2025, some ys, some 1, some 1⟩ ∧
      ys ≠ [] := by
  obtain ⟨⟨ys, heq, hysne, _⟩, _⟩ := claim_C3_amended
    ⟨[⟨1, "Aceh", "11", true⟩], [⟨"Aceh", 2024, mkRat 50 1, some 3⟩],
     [⟨"Aceh", 2024, mkRat 1 1, mkRat 2 1, mkRat 3 1, mkRat 4 1,
       Kondisi.Defisit, "Budi", "pemerintah", 0, some 0, none⟩]⟩
    2025 (by decide) (by decide) none (by decide) (by decide) none (by decide)
  exact ⟨ys, heq, hysne⟩

end RGBI
